import Mathlib

/-! Cascade, the emergency-help client.

A shallow embedding of the parts of the Cascade front end that decide which
lifecycle actions a page offers, how the new-request form validates its input
and how the suggestions page explains a match, together with the lifecycle
engine of the specification, which the front end only calls.

Conventions of the embedding.

* A JavaScript scalar is a `JsVal`.  Numbers are the rationals they denote:
  every finite double is a rational and the comparisons made by the code
  (against 0, 2, 5 and 15) are exact on them.
* The results of `ToNumber` and `parseFloat` are `JsNumber`s, which add `NaN`
  and the two infinities.
* A React state update is explicit state passing: an event handler takes the
  state it reads and returns the state it leaves behind.
* The reply of the server to a `fetch` is an argument of the handler.
-/

namespace Cascade

/-! ## JavaScript scalars -/

/-- JavaScript scalar values: what a form field holds and what a JSON record carries. -/
inductive JsVal where
  | undefined
  | null
  | bool (b : Bool)
  | num (q : ℚ)
  | str (s : String)
deriving DecidableEq

/-- JavaScript numbers as produced by `ToNumber` and `parseFloat`. -/
inductive JsNumber where
  | nan
  | negInf
  | fin (q : ℚ)
  | posInf
deriving DecidableEq

namespace JsNumber

/-- The comparison `x <= y` of two numbers; false as soon as one side is `NaN`. -/
def le : JsNumber → JsNumber → Bool
  | nan, _ => false
  | _, nan => false
  | negInf, _ => true
  | fin _, negInf => false
  | fin a, fin b => decide (a ≤ b)
  | fin _, posInf => true
  | posInf, posInf => true
  | posInf, _ => false

/-- The comparison `x < y` of two numbers; false as soon as one side is `NaN`. -/
def lt : JsNumber → JsNumber → Bool
  | nan, _ => false
  | _, nan => false
  | negInf, negInf => false
  | negInf, _ => true
  | fin _, negInf => false
  | fin a, fin b => decide (a < b)
  | fin _, posInf => true
  | posInf, _ => false

/-- The difference `x - y` of two numbers. -/
def sub : JsNumber → JsNumber → JsNumber
  | nan, _ => nan
  | _, nan => nan
  | fin a, fin b => fin (a - b)
  | fin _, posInf => negInf
  | fin _, negInf => posInf
  | posInf, posInf => nan
  | posInf, _ => posInf
  | negInf, negInf => nan
  | negInf, _ => negInf

/-- The quotient `x / c` of a number by a positive finite constant. -/
def divConst : JsNumber → ℚ → JsNumber
  | nan, _ => nan
  | fin a, c => fin (a / c)
  | posInf, _ => posInf
  | negInf, _ => negInf

end JsNumber

/-- JavaScript white space and line terminators, the characters `trim` strips and
numeric conversion skips. -/
def isJsWhiteSpace (c : Char) : Bool :=
  let n := c.toNat
  n == 0x9 || n == 0xA || n == 0xB || n == 0xC || n == 0xD || n == 0x20 || n == 0xA0
    || n == 0x1680 || (0x2000 ≤ n && n ≤ 0x200A) || n == 0x2028 || n == 0x2029
    || n == 0x202F || n == 0x205F || n == 0x3000 || n == 0xFEFF

/-- Characters of a string with leading and trailing white space removed. -/
def trimChars (cs : List Char) : List Char :=
  ((cs.dropWhile isJsWhiteSpace).reverse.dropWhile isJsWhiteSpace).reverse

/-- The method `String.prototype.trim`. -/
def jsTrim (s : String) : String :=
  String.mk (trimChars s.data)

/-- Reads a run of digits in the given radix: the value read so far, the number of
digits read so far, and the input; returns value, digit count and the rest. -/
def scanDigits (radix : Nat) : Nat → Nat → List Char → Nat × Nat × List Char
  | acc, n, [] => (acc, n, [])
  | acc, n, c :: cs =>
    let d : Nat :=
      if c.isDigit then c.toNat - 48
      else if 97 ≤ c.toNat ∧ c.toNat ≤ 102 then c.toNat - 87
      else if 65 ≤ c.toNat ∧ c.toNat ≤ 70 then c.toNat - 55
      else radix
    if d < radix then scanDigits radix (acc * radix + d) (n + 1) cs else (acc, n, c :: cs)

/-- Reads an optional exponent part `e[+-]digits`; an ill-formed one is not consumed. -/
def scanExponent : List Char → Int × List Char
  | [] => (0, [])
  | c :: cs =>
    if c == 'e' || c == 'E' then
      match cs with
      | '-' :: ds =>
        let r := scanDigits 10 0 0 ds
        if r.2.1 = 0 then (0, c :: cs) else (-(r.1 : Int), r.2.2)
      | '+' :: ds =>
        let r := scanDigits 10 0 0 ds
        if r.2.1 = 0 then (0, c :: cs) else ((r.1 : Int), r.2.2)
      | ds =>
        let r := scanDigits 10 0 0 ds
        if r.2.1 = 0 then (0, c :: cs) else ((r.1 : Int), r.2.2)
    else (0, c :: cs)

/-- Scales a rational by a power of ten. -/
def scale10 (q : ℚ) (e : Int) : ℚ :=
  if 0 ≤ e then q * (10 : ℚ) ^ e.toNat else q / (10 : ℚ) ^ (-e).toNat

/-- Reads the longest unsigned decimal literal (`12`, `12.`, `12.5`, `.5`, each with an
optional exponent) at the head of the input; `none` when there is none. -/
def scanDecimal (cs : List Char) : Option (ℚ × List Char) :=
  let ip := scanDigits 10 0 0 cs
  let fp : Nat × Nat × List Char :=
    match ip.2.2 with
    | '.' :: r => scanDigits 10 0 0 r
    | r => (0, 0, r)
  if ip.2.1 = 0 ∧ fp.2.1 = 0 then none
  else
    let ex := scanExponent fp.2.2
    some (scale10 ((ip.1 : ℚ) + (fp.1 : ℚ) / (10 : ℚ) ^ fp.2.1) ex.1, ex.2)

/-- Reads an unsigned decimal literal or `Infinity` at the head of the input. -/
def scanUnsigned (cs : List Char) : Option (JsNumber × List Char) :=
  match cs with
  | 'I' :: 'n' :: 'f' :: 'i' :: 'n' :: 'i' :: 't' :: 'y' :: r => some (JsNumber.posInf, r)
  | _ => (scanDecimal cs).map fun p => (JsNumber.fin p.1, p.2)

/-- Negation of a number. -/
def JsNumber.neg : JsNumber → JsNumber
  | .nan => .nan
  | .negInf => .posInf
  | .fin q => .fin (-q)
  | .posInf => .negInf

/-- Reads an optionally signed decimal literal or `Infinity` at the head of the input. -/
def scanSigned (cs : List Char) : Option (JsNumber × List Char) :=
  match cs with
  | '-' :: r => (scanUnsigned r).map fun p => (p.1.neg, p.2)
  | '+' :: r => scanUnsigned r
  | _ => scanUnsigned cs

/-- The global function `parseFloat` on a string: leading white space is skipped, the
longest numeric prefix is read, anything after it is ignored. -/
def parseFloatString (s : String) : JsNumber :=
  match scanSigned (s.data.dropWhile isJsWhiteSpace) with
  | some p => p.1
  | none => JsNumber.nan

/-- The conversion `StringToNumber`: the trimmed string must be empty (giving 0), a
signed decimal literal or `Infinity`, or an unsigned literal in radix 16, 8 or 2. -/
def stringToNumber (s : String) : JsNumber :=
  let cs := trimChars s.data
  let whole (radix : Nat) (ds : List Char) : JsNumber :=
    let r := scanDigits radix 0 0 ds
    if r.2.1 ≠ 0 ∧ r.2.2 = [] then JsNumber.fin (r.1 : ℚ) else JsNumber.nan
  match cs with
  | [] => JsNumber.fin 0
  | '0' :: 'x' :: ds => whole 16 ds
  | '0' :: 'X' :: ds => whole 16 ds
  | '0' :: 'o' :: ds => whole 8 ds
  | '0' :: 'O' :: ds => whole 8 ds
  | '0' :: 'b' :: ds => whole 2 ds
  | '0' :: 'B' :: ds => whole 2 ds
  | _ =>
    match scanSigned cs with
    | some (n, []) => n
    | _ => JsNumber.nan

namespace JsVal

/-- The conversion `ToBoolean`: which values pass an `if (v)` or fail an `if (!v)` test. -/
def truthy : JsVal → Bool
  | undefined => false
  | null => false
  | bool b => b
  | num q => decide (q ≠ 0)
  | str s => decide (s ≠ "")

/-- The conversion `ToNumber`. -/
def toNumber : JsVal → JsNumber
  | undefined => JsNumber.nan
  | null => JsNumber.fin 0
  | bool b => JsNumber.fin (if b then 1 else 0)
  | num q => JsNumber.fin q
  | str s => stringToNumber s

/-- The expression `a || b`. -/
def orElse (a b : JsVal) : JsVal :=
  if a.truthy then a else b

/-- The global function `parseFloat`: its argument is converted to a string and read
back; for a number this round trip returns the number. -/
def parseFloat : JsVal → JsNumber
  | undefined => JsNumber.nan
  | null => JsNumber.nan
  | bool _ => JsNumber.nan
  | num q => JsNumber.fin q
  | str s => parseFloatString s

/-- A value is missing when it is `undefined`, `null` or the empty string of an
unfilled input. -/
def isMissing : JsVal → Bool
  | undefined => true
  | null => true
  | str s => decide (s = "")
  | _ => false

end JsVal

/-! ## Records and handlers shared by the pages -/

/-- The `location` member of a user record: its two coordinates. -/
structure Location where
  latitude : JsVal := JsVal.undefined
  longitude : JsVal := JsVal.undefined
deriving DecidableEq

/-- The user record of `/api/auth/me`, as far as the pages read it; `location` is `none`
when the member is missing or null. -/
structure User where
  role : JsVal := JsVal.undefined
  skills : Option (List JsVal) := none
  location : Option Location := none

/-- A request record of `/api/requests` or `/api/map/data`, as far as the action
controls read it.  The identifier is `_id` on the lists and `id` on the map; the two
coordinates are `location.latitude` and `location.longitude`. -/
structure Request where
  id : String := ""
  status : JsVal := JsVal.undefined
  latitude : JsVal := JsVal.undefined
  longitude : JsVal := JsVal.undefined

/-- An HTTP call issued by a handler; `status` is the `status` member of the JSON body
when the call has a body. -/
structure HttpCall where
  method : String
  url : String
  status : Option String
deriving DecidableEq

/-- What a control does when it is activated: follow a link, or run one of the
handlers of its page with the given arguments. -/
inductive Handler where
  | link (href : String)
  | updateRequestStatus (requestId status : String)
  | markAsFulfilled (requestId : String)
  | volunteerForRequest (requestId : String)
deriving DecidableEq

/-- A rendered control: its caption and what activating it does. -/
structure Control where
  label : String
  handler : Handler
deriving DecidableEq

/-- The call a handler issues with `fetch`; a link issues none. -/
def Handler.call : Handler → Option HttpCall
  | .link _ => none
  | .updateRequestStatus requestId status =>
    some ⟨"PUT", "/api/requests/" ++ requestId ++ "/status", some status⟩
  | .markAsFulfilled requestId =>
    some ⟨"PUT", "/api/requests/" ++ requestId ++ "/status", some "fulfilled"⟩
  | .volunteerForRequest requestId =>
    some ⟨"PUT", "/api/requests/" ++ requestId ++ "/volunteer", none⟩

/-- The status a control asks the server to set, if it asks for one. -/
def Control.requestedStatus (c : Control) : Option String :=
  c.handler.call.bind fun call => call.status

/-- The list of controls offers the change to the given status. -/
def offersStatus (controls : List Control) (status : String) : Bool :=
  controls.any fun c => decide (c.requestedStatus = some status)

/-- The list of controls offers the claim action, captioned Offer Help. -/
def offersClaim (controls : List Control) : Bool :=
  controls.any fun c => decide (c.label = "Offer Help")

/-! ## The requests list, `requests/page.js` -/

namespace RequestsPage

/-- The action buttons rendered for one request of the list. -/
def actionButtons (user : User) (request : Request) : List Control :=
  (if user.role = JsVal.str "volunteer" ∧ request.status = JsVal.str "pending" then
      [⟨"Offer Help", Handler.link ("/volunteer/" ++ request.id)⟩]
    else [])
  ++ (if user.role = JsVal.str "victim" ∧ request.status = JsVal.str "in_progress" then
      [⟨"Mark as Fulfilled", Handler.updateRequestStatus request.id "fulfilled"⟩]
    else [])
  ++ (if user.role = JsVal.str "victim" ∧ request.status = JsVal.str "pending" then
      [⟨"Cancel Request", Handler.updateRequestStatus request.id "cancelled"⟩]
    else [])

end RequestsPage

/-! ## The dashboard, `dashboard/page.js` -/

namespace DashboardPage

/-- The action button rendered for one of the recent requests. -/
def actionButtons (user : User) (request : Request) : List Control :=
  if user.role = JsVal.str "victim" ∧ request.status = JsVal.str "in_progress" then
    [⟨"Mark as Fulfilled", Handler.markAsFulfilled request.id⟩]
  else []

end DashboardPage

/-! ## The map, `map/page.js` -/

namespace MapPage

/-- The requests that get a marker in `initializeMap`: those with both coordinates. -/
def hasMarker (request : Request) : Bool :=
  request.latitude.truthy && request.longitude.truthy

/-- The requests drawn on the map.  The status of a request is not consulted, and a
request in progress is drawn with an icon of its own. -/
def markers (requestsData : List Request) : List Request :=
  requestsData.filter hasMarker

/-- The click handler of the marker of a request: the new value of `selectedRequest`. -/
def markerClick (request : Request) : Option Request :=
  some request

/-- The action button of the request-detail modal, rendered while a request is
selected. -/
def detailModalActions (user : User) (selectedRequest : Option Request) : List Control :=
  match selectedRequest with
  | none => []
  | some request =>
    if user.role = JsVal.str "volunteer" then
      [⟨"Offer Help", Handler.volunteerForRequest request.id⟩]
    else []

end MapPage

/-! ## The new-request form, `requests/new/page.js` -/

/-- The reply to a `fetch` whose body is read with `response.json()`: either the call or
the reading of the body fails, or there is a response with its `ok` flag and the
`error` member of its body. -/
inductive FetchResult where
  | failure
  | response (ok : Bool) (error : JsVal)
deriving DecidableEq

namespace NewRequestPage

/-- The `location` member of the form state. -/
structure LocationField where
  latitude : JsVal := JsVal.str ""
  longitude : JsVal := JsVal.str ""
  address : JsVal := JsVal.str ""
deriving DecidableEq

/-- The form state `formData`. -/
structure FormData where
  type : String := "food"
  description : String := ""
  urgency : String := "medium"
  location : LocationField := {}
deriving DecidableEq

/-- The initial form state of `useState`. -/
def initialFormData : FormData := {}

/-- The pre-fill step of `fetchUserData`: the stored location of the user replaces the
location of the form when it has both coordinates. -/
def prefill (userLocation : Option LocationField) (prev : FormData) : FormData :=
  match userLocation with
  | none => prev
  | some location =>
    if location.latitude.truthy && location.longitude.truthy then
      { prev with location := location }
    else prev

/-- The inputs of the form, by their `name` attribute: `type`, `description`, `urgency`,
`location.latitude`, `location.longitude` and `location.address`. -/
inductive FieldName where
  | type
  | description
  | urgency
  | latitude
  | longitude
  | address
deriving DecidableEq

/-- The handler `handleChange` for the change event of the named input; the value of an
input is a string. -/
def handleChange (name : FieldName) (value : String) (prev : FormData) : FormData :=
  match name with
  | .type => { prev with type := value }
  | .description => { prev with description := value }
  | .urgency => { prev with urgency := value }
  | .latitude => { prev with location := { prev.location with latitude := JsVal.str value } }
  | .longitude => { prev with location := { prev.location with longitude := JsVal.str value } }
  | .address => { prev with location := { prev.location with address := JsVal.str value } }

/-- The success callback of `handleLocationRequest`.  Its arguments are the texts
`latitude.toString()`, `longitude.toString()` and the address composed with `toFixed`. -/
def setCurrentLocation (latitude longitude address : String) (prev : FormData) : FormData :=
  { prev with location :=
      { latitude := JsVal.str latitude, longitude := JsVal.str longitude,
        address := JsVal.str address } }

/-- The form states the page can be in: the initial one and those its handlers lead
to.  The text of a number is never empty. -/
inductive Reachable : FormData → Prop where
  | initial : Reachable initialFormData
  | prefill (userLocation : Option LocationField) (prev : FormData) :
      Reachable prev → Reachable (prefill userLocation prev)
  | change (name : FieldName) (value : String) (prev : FormData) :
      Reachable prev → Reachable (handleChange name value prev)
  | located (latitude longitude address : String) (prev : FormData) :
      latitude ≠ "" → longitude ≠ "" → Reachable prev →
      Reachable (setCurrentLocation latitude longitude address prev)

/-- The `location` member of the body of the create request. -/
structure LocationPayload where
  latitude : JsNumber
  longitude : JsNumber
  address : JsVal
deriving DecidableEq

/-- The body of the `POST /api/requests` call. -/
structure CreatePayload where
  type : String
  description : String
  urgency : String
  location : LocationPayload
deriving DecidableEq

/-- What a run of `handleSubmit` leaves behind: the `error` and `submitting` states,
the body of the create request if one was sent, and the route pushed if any. -/
structure SubmitOutcome where
  error : JsVal
  submitting : Bool
  sent : Option CreatePayload
  pushed : Option String
deriving DecidableEq

/-- The handler `handleSubmit`; `server` gives the reply to the create request. -/
def handleSubmit (formData : FormData) (server : CreatePayload → FetchResult) :
    SubmitOutcome :=
  if ¬ (JsVal.str (jsTrim formData.description)).truthy then
    { error := JsVal.str "Please provide a description of what help you need",
      submitting := false, sent := none, pushed := none }
  else if ¬ formData.location.latitude.truthy ∨ ¬ formData.location.longitude.truthy then
    { error := JsVal.str
        "Location is required. Please use current location or enter coordinates manually.",
      submitting := false, sent := none, pushed := none }
  else
    let body : CreatePayload :=
      { type := formData.type,
        description := jsTrim formData.description,
        urgency := formData.urgency,
        location :=
          { latitude := formData.location.latitude.parseFloat,
            longitude := formData.location.longitude.parseFloat,
            address := formData.location.address } }
    match server body with
    | FetchResult.failure =>
      { error := JsVal.str "Network error. Please try again.",
        submitting := false, sent := some body, pushed := none }
    | FetchResult.response true _ =>
      { error := JsVal.str "", submitting := false, sent := some body,
        pushed := some "/requests?created=true" }
    | FetchResult.response false error =>
      { error := error.orElse (JsVal.str "Failed to create request"),
        submitting := false, sent := some body, pushed := none }

/-- A form filled in by hand: a description padded with blanks and both coordinates. -/
def filledForm : FormData :=
  handleChange FieldName.longitude "-122.43"
    (handleChange FieldName.latitude "37.78"
      (handleChange FieldName.description "  Need water  " initialFormData))

/-- A form filled in by hand with latitude 91. -/
def outOfRangeForm : FormData :=
  handleChange FieldName.longitude "0"
    (handleChange FieldName.latitude "91"
      (handleChange FieldName.description "Need water" initialFormData))

/-- A coordinate pair lies in the valid range: latitude in [-90, 90] and longitude in
[-180, 180]. -/
def inRange (latitude longitude : JsNumber) : Bool :=
  (JsNumber.fin (-90)).le latitude && latitude.le (JsNumber.fin 90)
    && (JsNumber.fin (-180)).le longitude && longitude.le (JsNumber.fin 180)

end NewRequestPage

/-! ## The suggestions page, `suggestions/page.js` -/

namespace SuggestionsPage

/-- A suggestion of `/api/suggestions`, as far as `getMatchReasons` and the list read it.
The member `created_at` is the time value of `new Date(suggestion.created_at)` in
milliseconds, `none` for an invalid date. -/
structure Suggestion where
  distance : JsVal := JsVal.undefined
  urgency : JsVal := JsVal.undefined
  type : JsVal := JsVal.undefined
  created_at : Option Int := none
  id : JsVal := JsVal.undefined
  score : JsVal := JsVal.undefined
deriving DecidableEq

/-- The time value of a date as a number: `NaN` for an invalid date. -/
def timeValue : Option Int → JsNumber
  | none => JsNumber.nan
  | some t => JsNumber.fin (t : ℚ)

/-- The expression `user?.skills?.includes(type)` as a condition. -/
def skillsInclude (user : Option User) (type : JsVal) : Bool :=
  match user with
  | none => false
  | some u =>
    match u.skills with
    | none => false
    | some skills => skills.contains type

/-- The function `getMatchReasons`.  It reads the `user` state of the page and the
clock: `now` is the time value of the `new Date()` it evaluates. -/
def getMatchReasons (user : Option User) (now : Int) (suggestion : Suggestion) :
    List String :=
  let reasons : List String := []
  let reasons :=
    if suggestion.distance.toNumber.le (JsNumber.fin 5) then
      reasons ++ ["Very close to you"]
    else if suggestion.distance.toNumber.le (JsNumber.fin 15) then
      reasons ++ ["Nearby"]
    else reasons
  let reasons :=
    if suggestion.urgency = JsVal.str "high" then reasons ++ ["High priority"] else reasons
  let reasons :=
    if skillsInclude user suggestion.type then reasons ++ ["Matches your skills"]
    else reasons
  let hoursOld : JsNumber :=
    ((JsNumber.fin (now : ℚ)).sub (timeValue suggestion.created_at)).divConst
      (1000 * 60 * 60)
  let reasons :=
    if hoursOld.lt (JsNumber.fin 2) then reasons ++ ["Recent request"] else reasons
  reasons

end SuggestionsPage

/-! ## The lifecycle engine behind `/api/requests/:id/status` and `/api/requests/:id/volunteer`

The pages above only call these two routes; the code that serves them is not among the
front-end sources.  The engine below follows sections 3, 4.3, 4.4 and 7 of the
specification. -/

namespace Engine

/-- Modelled from the spec: the lifecycle states of section 4.3 (the server-side state
machine is missing from the sources). -/
inductive Status where
  | pending
  | in_progress
  | fulfilled
  | cancelled
deriving DecidableEq

/-- Modelled from the spec: the failures of section 7 that the lifecycle operations
return (the server-side error type is missing from the sources). -/
inductive EngineError where
  | NotFound
  | InvalidActor
  | InvalidTransition
  | AlreadyClaimed
deriving DecidableEq

/-- Modelled from the spec: the two roles of an actor, section 3 (the server-side actor
record is missing from the sources). -/
inductive Role where
  | victim
  | volunteer
deriving DecidableEq

/-- Modelled from the spec: an actor of section 3, reduced to identity and role (the
server-side actor record is missing from the sources). -/
structure Actor where
  id : String
  role : Role
deriving DecidableEq

/-- Modelled from the spec: a stored request of section 3, reduced to the attributes the
lifecycle reads and writes (the server-side request record is missing from the
sources). -/
structure StoredRequest where
  id : String
  victimId : String
  status : Status
  assignedVolunteerId : Option String
deriving DecidableEq

/-- Modelled from the spec: the store collaborator of section 3, which owns the actor
and request records (the persistence layer is missing from the sources). -/
structure Store where
  actors : List Actor
  requests : List StoredRequest
deriving DecidableEq

/-- Modelled from the spec: the result of a lifecycle operation, a request or a typed
failure, section 7 (the server-side result type is missing from the sources). -/
inductive Outcome where
  | ok (request : StoredRequest)
  | err (error : EngineError)
deriving DecidableEq

/-- Modelled from the spec: reading an actor by id (the store is missing from the
sources). -/
def Store.findActor (store : Store) (actorId : String) : Option Actor :=
  store.actors.find? fun a => decide (a.id = actorId)

/-- Modelled from the spec: reading a request by id (the store is missing from the
sources). -/
def Store.findRequest (store : Store) (requestId : String) : Option StoredRequest :=
  store.requests.find? fun r => decide (r.id = requestId)

/-- Modelled from the spec: writing back a request under its id (the store is missing
from the sources). -/
def Store.putRequest (store : Store) (request : StoredRequest) : Store :=
  { store with
    requests := store.requests.map fun r => if r.id = request.id then request else r }

/-- Modelled from the spec: the side effects of a successful claim, section 4.4: the
status flips to `in_progress` and the volunteer is recorded (the server-side update is
missing from the sources). -/
def StoredRequest.claimedBy (request : StoredRequest) (volunteerId : String) :
    StoredRequest :=
  { request with status := Status.in_progress, assignedVolunteerId := some volunteerId }

/-- Modelled from the spec: the transition table of section 4.3, the three listed
transitions and no other (the server-side state machine is missing from the sources). -/
def allowedTransition : Status → Status → Bool
  | .pending, .in_progress => true
  | .in_progress, .fulfilled => true
  | .pending, .cancelled => true
  | _, _ => false

/-- Modelled from the spec: the operation `setStatus(requestId, actorId, newStatus)` of
sections 4.3 and 6 (the route handler is missing from the sources).  A pair of states
outside the table fails with `InvalidTransition` whoever asks; a listed transition is
then gated on the actor: a volunteer claims, the owning victim fulfils or cancels.  A
failure leaves the store as it was. -/
def setStatus (store : Store) (requestId actorId : String) (newStatus : Status) :
    Store × Outcome :=
  match store.findRequest requestId with
  | none => (store, Outcome.err EngineError.NotFound)
  | some request =>
    if allowedTransition request.status newStatus then
      match store.findActor actorId with
      | none => (store, Outcome.err EngineError.NotFound)
      | some actor =>
        match newStatus with
        | Status.in_progress =>
          if actor.role = Role.volunteer then
            let updated : StoredRequest := request.claimedBy actor.id
            (store.putRequest updated, Outcome.ok updated)
          else (store, Outcome.err EngineError.InvalidActor)
        | _ =>
          if actor.role = Role.victim ∧ actor.id = request.victimId then
            let updated : StoredRequest := { request with status := newStatus }
            (store.putRequest updated, Outcome.ok updated)
          else (store, Outcome.err EngineError.InvalidActor)
    else (store, Outcome.err EngineError.InvalidTransition)

/-- Modelled from the spec: the operation `claim(requestId, volunteerId)` of section 4.4
(the route handler is missing from the sources): one atomic conditional update that
moves the request to `in_progress` under this volunteer only if its status is still
`pending`, and tells a later caller `AlreadyClaimed`. -/
def claim (store : Store) (requestId volunteerId : String) : Store × Outcome :=
  match store.findActor volunteerId with
  | none => (store, Outcome.err EngineError.NotFound)
  | some actor =>
    if actor.role = Role.volunteer then
      match store.findRequest requestId with
      | none => (store, Outcome.err EngineError.NotFound)
      | some request =>
        if request.status = Status.pending then
          let updated : StoredRequest := request.claimedBy volunteerId
          (store.putRequest updated, Outcome.ok updated)
        else (store, Outcome.err EngineError.AlreadyClaimed)
    else (store, Outcome.err EngineError.InvalidActor)

/-- Modelled from the spec: concurrent claims on one request, section 5 (the claim
coordinator is missing from the sources).  Each claim is one atomic step at the store,
so a concurrent run is the run of the claims in the order the store serialises them;
`schedule` is that order.  Returns the final store and the result of every call. -/
def runClaims (store : Store) (requestId : String) : List String → Store × List Outcome
  | [] => (store, [])
  | volunteerId :: schedule =>
    let step := claim store requestId volunteerId
    let rest := runClaims step.1 requestId schedule
    (rest.1, step.2 :: rest.2)

/-- A store with a victim, two volunteers, a pending request and a fulfilled one. -/
def exampleStore : Store :=
  { actors := [⟨"u1", Role.victim⟩, ⟨"v1", Role.volunteer⟩, ⟨"v2", Role.volunteer⟩],
    requests := [⟨"r1", "u1", Status.pending, none⟩,
                 ⟨"r2", "u1", Status.fulfilled, some "v1"⟩] }

/-- A result is a success. -/
def Outcome.isOk : Outcome → Bool
  | .ok _ => true
  | .err _ => false

end Engine

/-! ## The suggestions page: what is shown -/

namespace SuggestionsPage

/-- The rank shown with each entry of a list: `index + 1` in the order of the list, as in
`suggestions.map((suggestion, index) => ...)`. -/
def ranking {α : Type} (suggestions : List α) : List (Nat × α) :=
  suggestions.enum.map fun p => (p.1 + 1, p.2)

/-- One rendered suggestion: its rank, the suggestion with the score and distance it is
shown with, and its match reasons. -/
structure Card where
  rank : Nat
  suggestion : Suggestion
  matchReasons : List String
deriving DecidableEq

/-- What the page shows below its header once the user record is loaded. -/
inductive Content where
  | locationRequired
  | noSuggestions
  | ranked (cards : List Card)
deriving DecidableEq

/-- The member `user.location?.latitude` or `user.location?.longitude`. -/
def coordinate (user : User) (pick : Location → JsVal) : JsVal :=
  match user.location with
  | none => JsVal.undefined
  | some location => pick location

/-- The user record with its stored location replaced by the given coordinates. -/
def withLocation (user : User) (latitude longitude : JsVal) : User :=
  { user with location := some { latitude := latitude, longitude := longitude } }

/-- The profile check of the page and what it renders: the Location Required notice,
the empty state, or the ranked list. -/
def content (user : User) (now : Int) (suggestions : List Suggestion) : Content :=
  if ¬ (coordinate user fun l => l.latitude).truthy
      ∨ ¬ (coordinate user fun l => l.longitude).truthy then
    Content.locationRequired
  else if suggestions.length = 0 then Content.noSuggestions
  else
    Content.ranked
      ((ranking suggestions).map fun p =>
        { rank := p.1, suggestion := p.2, matchReasons := getMatchReasons (some user) now p.2 })

/-- The suggestions rendered by a content. -/
def Content.rendered : Content → List Suggestion
  | Content.ranked cards => cards.map fun c => c.suggestion
  | _ => []

/-- The text contains the pattern at its head. -/
def startsWithChars : List Char → List Char → Bool
  | [], _ => true
  | _ :: _, [] => false
  | p :: ps, c :: cs => p == c && startsWithChars ps cs

/-- The method `String.prototype.includes` on character lists. -/
def includesChars (pattern : List Char) : List Char → Bool
  | [] => pattern.isEmpty
  | c :: cs => startsWithChars pattern (c :: cs) || includesChars pattern cs

/-- The reply to `fetch('/api/suggestions')`: the call or the reading of the body fails,
or the response is OK with a list of suggestions, or it is not OK with a status and the
`error` text of its body. -/
inductive SuggestionsReply where
  | failure
  | ok (suggestions : List Suggestion)
  | notOk (status : Nat) (error : String)

/-- What `fetchSuggestions` leaves behind: the new `suggestions` state if it was set, the
route pushed if any, and the `loading` and `refreshing` flags. -/
structure FetchSuggestionsOutcome where
  suggestions : Option (List Suggestion)
  pushed : Option String
  loading : Bool
  refreshing : Bool

/-- The function `fetchSuggestions`. -/
def fetchSuggestions (reply : SuggestionsReply) : FetchSuggestionsOutcome :=
  match reply with
  | SuggestionsReply.failure =>
    { suggestions := none, pushed := none, loading := false, refreshing := false }
  | SuggestionsReply.ok suggestionsData =>
    { suggestions := some suggestionsData, pushed := none, loading := false,
      refreshing := false }
  | SuggestionsReply.notOk status error =>
    if status = 400 ∧ includesChars "Location is required".data error.data = true then
      { suggestions := none, pushed := some "/profile?setup=true&reason=location",
        loading := false, refreshing := false }
    else
      { suggestions := none, pushed := none, loading := false, refreshing := false }

/-- The function `getScoreColor`. -/
def getScoreColor (score : JsVal) : String :=
  if (JsNumber.fin 80).le score.toNumber then "text-green-600"
  else if (JsNumber.fin 60).le score.toNumber then "text-orange-600"
  else "text-gray-600"

end SuggestionsPage

/-! ## The handlers that claim a request or change its status -/

/-- What a run of a handler leaves behind: the call it issued, the messages it passed to
`alert`, the last value it gave to the `error` state of its page if it set it, whether
it fetched the list again, the route it pushed, and whether it wrote to the console. -/
structure HandlerOutcome where
  call : HttpCall
  alerts : List JsVal := []
  error : Option JsVal := none
  refreshed : Bool := false
  pushed : Option String := none
  logged : Bool := false
deriving DecidableEq

/-- The user is shown that the call failed: an alert was raised, or the page is left
with a non-empty `error` state, which it renders. -/
def HandlerOutcome.surfaced (o : HandlerOutcome) : Bool :=
  !o.alerts.isEmpty
    || (match o.error with
        | some e => e.truthy
        | none => false)

namespace RequestsPage

/-- The handler `volunteerForRequest` of the requests list. -/
def volunteerForRequest (requestId : String) (reply : FetchResult) : HandlerOutcome :=
  let call : HttpCall := ⟨"PUT", "/api/requests/" ++ requestId ++ "/volunteer", none⟩
  match reply with
  | FetchResult.response true _ => { call := call, refreshed := true }
  | FetchResult.response false error =>
    { call := call,
      alerts := [error.orElse (JsVal.str "Failed to volunteer for request")] }
  | FetchResult.failure =>
    { call := call, alerts := [JsVal.str "Network error. Please try again."],
      logged := true }

/-- The handler `updateRequestStatus` of the requests list. -/
def updateRequestStatus (requestId status : String) (reply : FetchResult) :
    HandlerOutcome :=
  let call : HttpCall := ⟨"PUT", "/api/requests/" ++ requestId ++ "/status", some status⟩
  match reply with
  | FetchResult.response true _ => { call := call, refreshed := true }
  | FetchResult.response false error =>
    { call := call,
      alerts := [error.orElse (JsVal.str "Failed to update request status")] }
  | FetchResult.failure =>
    { call := call, alerts := [JsVal.str "Network error. Please try again."],
      logged := true }

end RequestsPage

namespace MapPage

/-- The handler `volunteerForRequest` of the map; on success it also closes the modal. -/
def volunteerForRequest (requestId : String) (reply : FetchResult) : HandlerOutcome :=
  let call : HttpCall := ⟨"PUT", "/api/requests/" ++ requestId ++ "/volunteer", none⟩
  match reply with
  | FetchResult.response true _ => { call := call, refreshed := true }
  | FetchResult.response false error =>
    { call := call,
      alerts := [error.orElse (JsVal.str "Failed to volunteer for request")] }
  | FetchResult.failure =>
    { call := call, alerts := [JsVal.str "Network error. Please try again."],
      logged := true }

end MapPage

namespace DashboardPage

/-- The handler `markAsFulfilled` of the dashboard: it has no branch for a response that
is not OK, and its `catch` only writes to the console. -/
def markAsFulfilled (requestId : String) (reply : FetchResult) : HandlerOutcome :=
  let call : HttpCall :=
    ⟨"PUT", "/api/requests/" ++ requestId ++ "/status", some "fulfilled"⟩
  match reply with
  | FetchResult.response true _ => { call := call, refreshed := true }
  | FetchResult.response false _ => { call := call }
  | FetchResult.failure => { call := call, logged := true }

end DashboardPage

/-! ## The volunteer confirmation page, `volunteer/[requestId]/page.js` -/

namespace VolunteerPage

/-- The handler `handleVolunteer`: it clears the `error` state, issues the claim, and on
a response that is not OK or on a failure sets the `error` state to a message. -/
def handleVolunteer (requestId : String) (reply : FetchResult) : HandlerOutcome :=
  let call : HttpCall := ⟨"PUT", "/api/requests/" ++ requestId ++ "/volunteer", none⟩
  match reply with
  | FetchResult.response true _ =>
    { call := call, error := some (JsVal.str ""),
      pushed := some "/dashboard?volunteered=true" }
  | FetchResult.response false error =>
    { call := call,
      error := some (error.orElse (JsVal.str "Failed to volunteer for request")) }
  | FetchResult.failure =>
    { call := call, error := some (JsVal.str "Network error. Please try again."),
      logged := true }

end VolunteerPage

/-! ## The query built from the filters, `fetchRequests` and `fetchMapData` -/

/-- The characters the serialiser of `URLSearchParams` leaves as they are: ASCII letters
and digits and the four characters `*`, `-`, `.`, `_`. -/
def isUrlSafe (c : Char) : Bool :=
  c.isAlphanum || c == '*' || c == '-' || c == '.' || c == '_'

/-- The UTF-8 bytes of a character. -/
def utf8Bytes (c : Char) : List Nat :=
  let n := c.toNat
  if n < 0x80 then [n]
  else if n < 0x800 then [0xC0 + n / 64, 0x80 + n % 64]
  else if n < 0x10000 then [0xE0 + n / 4096, 0x80 + n / 64 % 64, 0x80 + n % 64]
  else [0xF0 + n / 262144, 0x80 + n / 4096 % 64, 0x80 + n / 64 % 64, 0x80 + n % 64]

/-- An upper-case hexadecimal digit. -/
def hexDigit (n : Nat) : Char :=
  if n < 10 then Char.ofNat (48 + n) else Char.ofNat (55 + n)

/-- One character in the `application/x-www-form-urlencoded` serialisation: a safe
character stands for itself, a space becomes `+`, any other character becomes its UTF-8
bytes, percent-encoded. -/
def formUrlEncodeChar (c : Char) : List Char :=
  if isUrlSafe c then [c]
  else if c == ' ' then ['+']
  else (utf8Bytes c).flatMap fun b => ['%', hexDigit (b / 16), hexDigit (b % 16)]

/-- A name or a value in the `application/x-www-form-urlencoded` serialisation. -/
def formUrlEncode (s : String) : String :=
  String.mk (s.data.flatMap formUrlEncodeChar)

/-- The method `URLSearchParams.prototype.toString`. -/
def toQueryString (params : List (String × String)) : String :=
  String.intercalate "&" (params.map fun p => formUrlEncode p.1 ++ "=" ++ formUrlEncode p.2)

/-- The loop `Object.entries(filters).forEach(...)` shared by `fetchRequests` and
`fetchMapData`: a filter whose value is not empty is appended to the parameters, the
filter `maxDistance` under the name `max_distance`, any other under its own name. -/
def appendFilters (entries : List (String × String)) : List (String × String) :=
  entries.foldl
    (fun params entry =>
      if entry.2 ≠ "" then
        if entry.1 = "maxDistance" then params ++ [("max_distance", entry.2)]
        else params ++ [(entry.1, entry.2)]
      else params)
    []

namespace RequestsPage

/-- The `filters` state of the requests list; the values are those of the selects. -/
structure Filters where
  type : String := ""
  urgency : String := ""
  status : String := ""
  maxDistance : String := ""
deriving DecidableEq

/-- The expression `Object.entries(filters)`: the members in the order of the state. -/
def Filters.entries (filters : Filters) : List (String × String) :=
  [("type", filters.type), ("urgency", filters.urgency), ("status", filters.status),
   ("maxDistance", filters.maxDistance)]

/-- The parameters `fetchRequests` builds. -/
def fetchRequestsParams (filters : Filters) : List (String × String) :=
  appendFilters filters.entries

/-- The address `fetchRequests` fetches. -/
def fetchRequestsUrl (filters : Filters) : String :=
  "/api/requests?" ++ toQueryString (fetchRequestsParams filters)

end RequestsPage

namespace MapPage

/-- The `filters` state of the map; the values are those of the selects. -/
structure Filters where
  type : String := ""
  urgency : String := ""
  maxDistance : String := ""
deriving DecidableEq

/-- The expression `Object.entries(filters)`: the members in the order of the state. -/
def Filters.entries (filters : Filters) : List (String × String) :=
  [("type", filters.type), ("urgency", filters.urgency),
   ("maxDistance", filters.maxDistance)]

/-- The parameters `fetchMapData` builds. -/
def fetchMapDataParams (filters : Filters) : List (String × String) :=
  appendFilters filters.entries

/-- The address `fetchMapData` fetches. -/
def fetchMapDataUrl (filters : Filters) : String :=
  "/api/map/data?" ++ toQueryString (fetchMapDataParams filters)

end MapPage

/-! ## The volunteer confirmation page: loading the request -/

/-- A JSON record as the pages receive it, reduced to its scalar members, in order. -/
structure JsObject where
  members : List (String × JsVal)
deriving DecidableEq

namespace JsObject

/-- The member access `o.key` or `o[key]`; `undefined` when there is no such member. -/
def get (o : JsObject) (key : String) : JsVal :=
  match o.members.find? fun p => decide (p.1 = key) with
  | some p => p.2
  | none => JsVal.undefined

/-- The record with one member written: an existing member keeps its place, a new one
is added at the end. -/
def set (o : JsObject) (key : String) (value : JsVal) : JsObject :=
  if o.members.any fun p => decide (p.1 = key) then
    ⟨o.members.map fun p => if p.1 = key then (key, value) else p⟩
  else ⟨o.members ++ [(key, value)]⟩

/-- The spread `{ ...target, ...source }`: the members of the source are written over
the target, in order. -/
def spread (target source : JsObject) : JsObject :=
  source.members.foldl (fun acc p => acc.set p.1 p.2) target

end JsObject

namespace VolunteerPage

/-- The reply to a `fetch` of a list: the call or the reading of the body fails, or the
response is not OK, or it is OK with the list of records of its body. -/
inductive ListReply where
  | failure
  | notOk
  | ok (items : List JsObject)
deriving DecidableEq

/-- What `fetchRequestData` leaves behind: the `request` state if it was set, the `error`
state if it was set, and the `loading` flag. -/
structure RequestDataOutcome where
  request : Option JsObject
  error : Option String
  loading : Bool
deriving DecidableEq

/-- The record `fetchRequestData` builds from a request of `/api/requests`:
`{ id: foundRequest._id, ...foundRequest, score: 0 }`. -/
def toSuggestionFormat (foundRequest : JsObject) : JsObject :=
  ((JsObject.mk [("id", foundRequest.get "_id")]).spread foundRequest).set "score"
    (JsVal.num 0)

/-- The second half of `fetchRequestData`, reached when the request is not among the
suggestions: the lookup by `_id` among the requests of `/api/requests`. -/
def fetchFromRequests (requestId : String) (requestsReply : ListReply) :
    RequestDataOutcome :=
  match requestsReply with
  | ListReply.failure =>
    { request := none, error := some "Network error. Please try again.", loading := false }
  | ListReply.notOk =>
    { request := none, error := some "Failed to load request details", loading := false }
  | ListReply.ok requests =>
    match requests.find? fun r => decide (r.get "_id" = JsVal.str requestId) with
    | some foundRequest =>
      { request := some (toSuggestionFormat foundRequest), error := none, loading := false }
    | none =>
      { request := none, error := some "Request not found or no longer available",
        loading := false }

/-- The function `fetchRequestData`: the request is looked up among the suggestions by
`id`, and failing that among the requests by `_id`. -/
def fetchRequestData (requestId : String) (suggestionsReply requestsReply : ListReply) :
    RequestDataOutcome :=
  match suggestionsReply with
  | ListReply.failure =>
    { request := none, error := some "Network error. Please try again.", loading := false }
  | ListReply.notOk => fetchFromRequests requestId requestsReply
  | ListReply.ok suggestions =>
    match suggestions.find? fun s => decide (s.get "id" = JsVal.str requestId) with
    | some foundRequest => { request := some foundRequest, error := none, loading := false }
    | none => fetchFromRequests requestId requestsReply

/-- A record of `/api/requests` that carries a score of its own. -/
def scoredRecord : JsObject :=
  ⟨[("_id", JsVal.str "r9"), ("status", JsVal.str "pending"), ("score", JsVal.num 87)]⟩

/-- The score indicator of the page, `request.score > 0 && ...`: the score shown before
`% match`, if the indicator is rendered. -/
def scoreBadge (request : JsObject) : Option JsVal :=
  if (JsNumber.fin 0).lt (request.get "score").toNumber then some (request.get "score")
  else none

end VolunteerPage

/-! ## The scoring module and the suggestion assembler of the specification

The address `/api/suggestions` is served by code that is not among the front-end
sources.  The definitions below follow sections 4.2 and 4.5 of the specification. -/

namespace Engine

/-- Modelled from the spec: a coordinate in degrees, section 4.1 (the geo module is
missing from the sources). -/
structure Coordinate where
  latitude : ℚ
  longitude : ℚ
deriving DecidableEq

/-- Modelled from the spec: the urgency levels of section 3 (the server-side request
record is missing from the sources). -/
inductive Urgency where
  | low
  | medium
  | high
deriving DecidableEq

/-- Modelled from the spec: a volunteer as the scoring module reads it, section 3: an
optional location and a set of skill tags (the server-side actor record is missing
from the sources). -/
structure Volunteer where
  id : String
  location : Option Coordinate
  skills : List String
deriving DecidableEq

/-- Modelled from the spec: a request as the suggestion assembler reads it, section 3
(the server-side request record is missing from the sources). -/
structure Candidate where
  id : String
  type : String
  urgency : Urgency
  location : Option Coordinate
  status : Status
  createdAt : Int
deriving DecidableEq

/-- Modelled from the spec: the weight constants of the scoring module, which section 9
leaves to be named and tuned: the bonuses of distance tiers A and B, the increment of
each urgency level, the skill bonus, the recency bonus and the cutoff of its decay in
milliseconds (the scoring module is missing from the sources). -/
structure Weights where
  distanceTierA : Int
  distanceTierB : Int
  urgencyLow : Int
  urgencyMedium : Int
  urgencyHigh : Int
  skillMatch : Int
  recency : Int
  recencyCutoffMs : Int
deriving DecidableEq

/-- Modelled from the spec: the distance term of section 4.2: at most 5 km gives tier A,
at most 15 km tier B, anything farther no bonus (the scoring module is missing from
the sources). -/
def distanceTerm (w : Weights) (distance : ℚ) : Int :=
  if distance ≤ 5 then w.distanceTierA
  else if distance ≤ 15 then w.distanceTierB
  else 0

/-- Modelled from the spec: the urgency term of section 4.2, a fixed increment per
level (the scoring module is missing from the sources). -/
def urgencyTerm (w : Weights) : Urgency → Int
  | Urgency.low => w.urgencyLow
  | Urgency.medium => w.urgencyMedium
  | Urgency.high => w.urgencyHigh

/-- Modelled from the spec: the skill-match term of section 4.2, a fixed bonus if the
type of the request is among the skills of the volunteer (the scoring module is
missing from the sources). -/
def skillTerm (w : Weights) (skills : List String) (type : String) : Int :=
  if type ∈ skills then w.skillMatch else 0

/-- Modelled from the spec: the recency term of section 4.2: the bonus for a request
less than 2 hours old, decaying linearly to zero as the age approaches the cutoff,
never negative (the scoring module is missing from the sources). -/
def recencyTerm (w : Weights) (ageMs : Int) : Int :=
  if ageMs < 2 * 60 * 60 * 1000 then w.recency
  else if ageMs < w.recencyCutoffMs then
    max 0 (w.recency * (w.recencyCutoffMs - ageMs)
      / (w.recencyCutoffMs - 2 * 60 * 60 * 1000))
  else 0

/-- Modelled from the spec: the function `score(volunteer, request)` of section 4.2 (the
scoring module is missing from the sources): the four terms in their order, clamped to
[0, 100].  The evaluation time `now` is an argument; `distance` is the distance in km
between the two locations as the geo module computes it. -/
def score (w : Weights) (now : Int) (volunteer : Volunteer) (request : Candidate)
    (distance : ℚ) : Int :=
  max 0 (min 100
    (distanceTerm w distance + urgencyTerm w request.urgency
      + skillTerm w volunteer.skills request.type
      + recencyTerm w (now - request.createdAt)))

/-- Modelled from the spec: a scored request of section 4.5, the request with its
distance and its score (the suggestion assembler is missing from the sources). -/
structure ScoredRequest where
  request : Candidate
  distance : ℚ
  score : Int
deriving DecidableEq

/-- Modelled from the spec: the optional filters of `suggest`, section 4.5: type
equality, urgency equality and a ceiling on the distance (the suggestion assembler is
missing from the sources). -/
structure SuggestFilters where
  type : Option String := none
  urgency : Option Urgency := none
  maxDistanceKm : Option ℚ := none
deriving DecidableEq

/-- Modelled from the spec: the narrowing step (e) of section 4.5 (the suggestion
assembler is missing from the sources). -/
def SuggestFilters.admits (filters : SuggestFilters) (entry : ScoredRequest) : Bool :=
  (match filters.type with
    | none => true
    | some t => decide (entry.request.type = t))
  && (match filters.urgency with
    | none => true
    | some u => decide (entry.request.urgency = u))
  && (match filters.maxDistanceKm with
    | none => true
    | some m => decide (entry.distance ≤ m))

/-- Modelled from the spec: the order of step (f) of section 4.5: descending score, then
ascending distance, then ascending creation time (the suggestion assembler is missing
from the sources). -/
def rankedBefore (a b : ScoredRequest) : Bool :=
  decide (b.score < a.score)
    || (decide (a.score = b.score)
      && (decide (a.distance < b.distance)
        || (decide (a.distance = b.distance)
          && decide (a.request.createdAt ≤ b.request.createdAt))))

/-- Modelled from the spec: the sort of step (f) of section 4.5 (the suggestion
assembler is missing from the sources). -/
def rank (entries : List ScoredRequest) : List ScoredRequest :=
  entries.insertionSort fun a b => rankedBefore a b = true

/-- Modelled from the spec: the result of `suggest`, the ranked list or the failure
`LocationRequired` of section 7 (the suggestion assembler is missing from the
sources). -/
inductive SuggestOutcome where
  | ok (ranked : List ScoredRequest)
  | locationRequired
deriving DecidableEq

/-- Modelled from the spec: the operation `suggest(volunteer, filters)` of section 4.5
(the suggestion assembler is missing from the sources): pending requests only, failure
without a volunteer location, candidates without a location dropped, distance and
score computed with one `now`, filters applied, the result ranked and not truncated.
The geo module `distanceKm` of section 4.1 is an argument. -/
def suggest (w : Weights) (distanceKm : Coordinate → Coordinate → ℚ) (now : Int)
    (volunteer : Volunteer) (filters : SuggestFilters) (requests : List Candidate) :
    SuggestOutcome :=
  match volunteer.location with
  | none => SuggestOutcome.locationRequired
  | some here =>
    let pending := requests.filter fun r => decide (r.status = Status.pending)
    let scored : List ScoredRequest :=
      pending.filterMap fun r =>
        r.location.map fun there =>
          { request := r, distance := distanceKm here there,
            score := score w now volunteer r (distanceKm here there) }
    SuggestOutcome.ok (rank (scored.filter filters.admits))

/-- Weights for the example scenario of section 8. -/
def exampleWeights : Weights :=
  { distanceTierA := 30, distanceTierB := 15, urgencyLow := 5, urgencyMedium := 10,
    urgencyHigh := 20, skillMatch := 25, recency := 10,
    recencyCutoffMs := 24 * 60 * 60 * 1000 }

/-- The volunteer of the example scenario of section 8, with the skill food. -/
def exampleVolunteer : Volunteer :=
  { id := "v1", location := some ⟨3777 / 100, -12242 / 100⟩, skills := ["food"] }

/-- Request A of the example scenario of section 8, created ten minutes before the
evaluation time 72 000 000. -/
def requestA : Candidate :=
  { id := "A", type := "food", urgency := Urgency.high,
    location := some ⟨3778 / 100, -12243 / 100⟩, status := Status.pending,
    createdAt := 71400000 }

/-- Request B of the example scenario of section 8, created twenty hours before the
evaluation time 72 000 000. -/
def requestB : Candidate :=
  { id := "B", type := "medical", urgency := Urgency.low,
    location := some ⟨3790 / 100, -12260 / 100⟩, status := Status.pending,
    createdAt := 0 }

/-- The distances of the example scenario of section 8 from the volunteer, about 1.4 km
to request A and about 21 km to request B, standing in for the geo module. -/
def exampleDistanceKm : Coordinate → Coordinate → ℚ :=
  fun _ there => if there.latitude = 3778 / 100 then 14 / 10 else 21

/-- Modelled from the spec: the name of an urgency level on the wire (the transport
layer is missing from the sources). -/
def Urgency.toString : Urgency → String
  | Urgency.low => "low"
  | Urgency.medium => "medium"
  | Urgency.high => "high"

/-- Modelled from the spec: a scored request as `/api/suggestions` sends it, under the
member names the suggestions page reads (the transport layer is missing from the
sources). -/
def toSuggestion (entry : ScoredRequest) : SuggestionsPage.Suggestion :=
  { distance := JsVal.num entry.distance,
    urgency := JsVal.str entry.request.urgency.toString,
    type := JsVal.str entry.request.type,
    created_at := some entry.request.createdAt,
    id := JsVal.str entry.request.id,
    score := JsVal.num (entry.score : ℚ) }

end Engine

/-! ## Formatting a distance, `components/utils.js`, and a travel time -/

/-- The text of a scalar in a template literal.  The argument `numberText` is
`Number.prototype.toString`, the shortest decimal text that reads back as the same
double. -/
def JsVal.toText (numberText : ℚ → String) : JsVal → String
  | JsVal.undefined => "undefined"
  | JsVal.null => "null"
  | JsVal.bool true => "true"
  | JsVal.bool false => "false"
  | JsVal.num q => numberText q
  | JsVal.str s => s

/-- The function `formatDistance`. -/
def formatDistance (numberText : ℚ → String) (distance : JsVal) : String :=
  if ¬ distance.truthy then "Unknown distance"
  else distance.toText numberText ++ " km away"

/-- The function `Math.round` on a finite number: the nearest integer, a tie going up. -/
def mathRound (x : ℚ) : Int :=
  Int.floor (x + 1 / 2)

/-- The text of an integer in a template literal: its decimal digits, as JavaScript
prints an integer below 10^21. -/
def integerText (n : Int) : String :=
  toString n

namespace VolunteerPage

/-- The function `calculateETA`.  The argument `fl` rounds a real number to the nearest
double, as the division by 30 and the multiplication by 60 do; the quotient and the
remainder of the integer `minutes` by 60 are exact and the integers are printed with
their decimal digits as long as `minutes` is below 2^53.  A distance that passes the first
test and converts to `NaN` or an infinity falls through the same branches, giving the
three texts of the last lines. -/
def calculateETA (fl : ℚ → ℚ) (distance : JsVal) : String :=
  if ¬ distance.truthy then "Unknown"
  else
    match distance.toNumber with
    | JsNumber.fin d =>
      let timeInHours := fl (d / 30)
      let minutes := mathRound (fl (timeInHours * 60))
      if minutes < 60 then integerText minutes ++ " minutes"
      else
        let hours := minutes / 60
        let remainingMinutes := minutes % 60
        if remainingMinutes > 0 then
          integerText hours ++ "h " ++ integerText remainingMinutes ++ "m"
        else integerText hours ++ " hour" ++ (if hours > 1 then "s" else "")
    | JsNumber.nan => "NaN hour"
    | JsNumber.posInf => "Infinity hours"
    | JsNumber.negInf => "-Infinity minutes"

end VolunteerPage

/-! ## The profile page, `profile/page.js` -/

namespace ProfilePage

/-- The `location` member of the form state and of a user record. -/
structure LocationField where
  latitude : JsVal
  longitude : JsVal
  address : JsVal
deriving DecidableEq

/-- The user record of `/api/auth/me` as the profile page reads it; `location` and
`skills` are `none` when the member is missing or null. -/
structure UserData where
  name : JsVal := JsVal.undefined
  phone : JsVal := JsVal.undefined
  location : Option LocationField := none
  skills : Option (List JsVal) := none
deriving DecidableEq

/-- The form state `formData`. -/
structure FormData where
  name : JsVal
  phone : JsVal
  location : LocationField
  skills : List JsVal
deriving DecidableEq

/-- The form state set by `fetchUserData` from the user record. -/
def fetchUserData (userData : UserData) : FormData :=
  { name := userData.name.orElse (JsVal.str ""),
    phone := userData.phone.orElse (JsVal.str ""),
    location := userData.location.getD ⟨JsVal.str "", JsVal.str "", JsVal.str ""⟩,
    skills := userData.skills.getD [] }

/-- The form state after loading a user record whose stored location has the given
members. -/
def loaded (userData : UserData) (latitude longitude address : JsVal) : FormData :=
  fetchUserData { userData with location := some ⟨latitude, longitude, address⟩ }

/-- The handler `handleSkillToggle`. -/
def handleSkillToggle (skill : JsVal) (prev : FormData) : FormData :=
  { prev with
    skills :=
      if prev.skills.contains skill then prev.skills.filter fun s => decide (s ≠ skill)
      else prev.skills ++ [skill] }

/-- The inputs of the form, by their `name` attribute: `name`, `phone`,
`location.latitude`, `location.longitude` and `location.address`. -/
inductive FieldName where
  | name
  | phone
  | latitude
  | longitude
  | address
deriving DecidableEq

/-- The handler `handleChange` for the change event of the named input. -/
def handleChange (field : FieldName) (value : String) (prev : FormData) : FormData :=
  match field with
  | .name => { prev with name := JsVal.str value }
  | .phone => { prev with phone := JsVal.str value }
  | .latitude => { prev with location := { prev.location with latitude := JsVal.str value } }
  | .longitude => { prev with location := { prev.location with longitude := JsVal.str value } }
  | .address => { prev with location := { prev.location with address := JsVal.str value } }

/-- The success callback of `handleLocationRequest`, with the texts it computes from the
position. -/
def setCurrentLocation (latitude longitude address : String) (prev : FormData) : FormData :=
  { prev with location := ⟨JsVal.str latitude, JsVal.str longitude, JsVal.str address⟩ }

/-- An edit of the form between loading and saving. -/
inductive Edit where
  | change (field : FieldName) (value : String)
  | toggle (skill : JsVal)
  | located (latitude longitude address : String)
deriving DecidableEq

/-- The form state after an edit. -/
def applyEdit (formData : FormData) : Edit → FormData
  | Edit.change field value => handleChange field value formData
  | Edit.toggle skill => handleSkillToggle skill formData
  | Edit.located latitude longitude address =>
    setCurrentLocation latitude longitude address formData

/-- The edit writes to a location field. -/
def Edit.touchesLocation : Edit → Bool
  | Edit.change FieldName.latitude _ => true
  | Edit.change FieldName.longitude _ => true
  | Edit.change FieldName.address _ => true
  | Edit.located _ _ _ => true
  | _ => false

/-- The `location` member of the body of the update, when it is not the empty object. -/
structure LocationPayload where
  latitude : JsNumber
  longitude : JsNumber
  address : JsVal
deriving DecidableEq

/-- The body of the `PUT /api/profile` call; `location` is `none` for the empty object
`{}`. -/
structure UpdatePayload where
  name : JsVal
  phone : JsVal
  location : Option LocationPayload
  skills : List JsVal
deriving DecidableEq

/-- What a run of `handleSubmit` leaves behind: the `error`, `message` and `saving`
states, the body of the update if one was sent, and whether the move to the dashboard
was scheduled. -/
structure SubmitOutcome where
  error : JsVal
  message : String
  saving : Bool
  sent : Option UpdatePayload
  toDashboard : Bool
deriving DecidableEq

/-- The handler `handleSubmit`; `isSetup` is the `setup=true` flag of the address. -/
def handleSubmit (isSetup : Bool) (formData : FormData) (reply : FetchResult) :
    SubmitOutcome :=
  if isSetup = true
      ∧ (¬ formData.location.latitude.truthy ∨ ¬ formData.location.longitude.truthy) then
    { error := JsVal.str "Location is required to complete your profile setup",
      message := "", saving := false, sent := none, toDashboard := false }
  else
    let body : UpdatePayload :=
      { name := formData.name,
        phone := formData.phone,
        location :=
          if formData.location.latitude.truthy ∧ formData.location.longitude.truthy then
            some ⟨formData.location.latitude.parseFloat,
                  formData.location.longitude.parseFloat, formData.location.address⟩
          else none,
        skills := formData.skills }
    match reply with
    | FetchResult.response true _ =>
      { error := JsVal.str "", message := "Profile updated successfully", saving := false,
        sent := some body, toDashboard := isSetup }
    | FetchResult.response false error =>
      { error := error.orElse (JsVal.str "Failed to update profile"), message := "",
        saving := false, sent := some body, toDashboard := false }
    | FetchResult.failure =>
      { error := JsVal.str "Network error. Please try again.", message := "",
        saving := false, sent := some body, toDashboard := false }

end ProfilePage

/-! ## The statistics of the dashboard and the role gates -/

namespace DashboardPage

/-- The `stats` state set by `calculateStats`: the members of the victim or of the
volunteer variant. -/
inductive Stats where
  | victim (pending inProgress fulfilled total : Nat)
  | volunteer (helped inProgress available : Nat)
deriving DecidableEq

/-- The function `calculateStats`; `role` is `localStorage.getItem('role')`. -/
def calculateStats (role : Option String) (requestsData : List Request) : Stats :=
  if role = some "victim" then
    let pending := (requestsData.filter fun r => decide (r.status = JsVal.str "pending")).length
    let inProgress :=
      (requestsData.filter fun r => decide (r.status = JsVal.str "in_progress")).length
    let fulfilled :=
      (requestsData.filter fun r => decide (r.status = JsVal.str "fulfilled")).length
    Stats.victim pending inProgress fulfilled requestsData.length
  else
    let helped := (requestsData.filter fun r => decide (r.status = JsVal.str "fulfilled")).length
    let inProgress :=
      (requestsData.filter fun r => decide (r.status = JsVal.str "in_progress")).length
    Stats.volunteer helped inProgress requestsData.length

/-- The number of requests of a list with the given status. -/
def withStatus (status : String) (requestsData : List Request) : Nat :=
  (requestsData.filter fun r => decide (r.status = JsVal.str status)).length

/-- The number of requests of a list with a status other than pending, in_progress and
fulfilled. -/
def otherStatus (requestsData : List Request) : Nat :=
  (requestsData.filter fun r =>
    decide (r.status ≠ JsVal.str "pending" ∧ r.status ≠ JsVal.str "in_progress"
      ∧ r.status ≠ JsVal.str "fulfilled")).length

end DashboardPage

/-- What the first effect of a page does when the page is mounted: push a route, or start
the named fetches. -/
inductive MountEffect where
  | redirect (route : String)
  | fetch (calls : List String)
deriving DecidableEq

/-- The test `!value` on a value read from `localStorage`: it is null or empty. -/
def storedMissing : Option String → Bool
  | none => true
  | some s => decide (s = "")

namespace SuggestionsPage

/-- The effect of the page on mount; `role` and `userId` are the stored `role` and
`user_id`. -/
def onMount (role userId : Option String) : MountEffect :=
  if storedMissing role ∨ storedMissing userId then MountEffect.redirect "/login"
  else if role ≠ some "volunteer" then MountEffect.redirect "/dashboard"
  else MountEffect.fetch ["fetchUserData", "fetchSuggestions"]

end SuggestionsPage

namespace VolunteerPage

/-- The effect of the page on mount; `role` and `userId` are the stored `role` and
`user_id`. -/
def onMount (role userId : Option String) : MountEffect :=
  if storedMissing role ∨ storedMissing userId then MountEffect.redirect "/login"
  else if role ≠ some "volunteer" then MountEffect.redirect "/dashboard"
  else MountEffect.fetch ["fetchUserData", "fetchRequestData", "loadLeaflet"]

end VolunteerPage

namespace NewRequestPage

/-- The effect of the page on mount; `role` and `userId` are the stored `role` and
`user_id`. -/
def onMount (role userId : Option String) : MountEffect :=
  if storedMissing role ∨ storedMissing userId then MountEffect.redirect "/login"
  else if role ≠ some "victim" then MountEffect.redirect "/dashboard"
  else MountEffect.fetch ["fetchUserData"]

end NewRequestPage

/-! ## Which lifecycle actions the pages offer -/

/-- C1, evaluated on the map: for a volunteer the request-detail modal offers the claim
action Offer Help, wired to `volunteerForRequest`, for whatever request was selected,
its status is not read; a request in progress gets a marker, so it can be selected,
and the modal then offers the claim that the requests list withholds for it. -/
theorem map_modal_offers_claim_in_progress :
    (∀ request : Request,
      MapPage.detailModalActions { role := JsVal.str "volunteer" }
          (MapPage.markerClick request)
        = [⟨"Offer Help", Handler.volunteerForRequest request.id⟩])
    ∧ ({ id := "r1", status := JsVal.str "in_progress", latitude := JsVal.num 37,
         longitude := JsVal.num (-122) } : Request)
        ∈ MapPage.markers
            [{ id := "r1", status := JsVal.str "in_progress", latitude := JsVal.num 37,
               longitude := JsVal.num (-122) }]
    ∧ offersClaim
        (MapPage.detailModalActions { role := JsVal.str "volunteer" }
          (MapPage.markerClick
            { id := "r1", status := JsVal.str "in_progress", latitude := JsVal.num 37,
              longitude := JsVal.num (-122) })) = true
    ∧ offersClaim
        (RequestsPage.actionButtons { role := JsVal.str "volunteer" }
          { id := "r1", status := JsVal.str "in_progress", latitude := JsVal.num 37,
            longitude := JsVal.num (-122) }) = false := by
  refine ⟨fun request => ?_, ?_, ?_, ?_⟩
  · simp [MapPage.detailModalActions, MapPage.markerClick]
  · simp [MapPage.markers, MapPage.hasMarker, JsVal.truthy]
  · simp [MapPage.detailModalActions, MapPage.markerClick, offersClaim]
  · simp [RequestsPage.actionButtons, offersClaim]

/-- C2: on the requests list the change to cancelled is offered exactly when the role
of the user is victim and the status of the request is pending, and it is then the
Cancel Request button calling `updateRequestStatus(id, 'cancelled')`. -/
theorem requests_cancel_offered_iff (user : User) (request : Request) :
    (offersStatus (RequestsPage.actionButtons user request) "cancelled" = true
      ↔ user.role = JsVal.str "victim" ∧ request.status = JsVal.str "pending")
    ∧ (∀ c ∈ RequestsPage.actionButtons user request,
        c.requestedStatus = some "cancelled" →
          c = ⟨"Cancel Request", Handler.updateRequestStatus request.id "cancelled"⟩) := by
  constructor
  · by_cases h1 : user.role = JsVal.str "victim" <;>
      by_cases h2 : request.status = JsVal.str "pending" <;>
      by_cases h3 : request.status = JsVal.str "in_progress" <;>
      by_cases h4 : user.role = JsVal.str "volunteer" <;>
      simp_all [RequestsPage.actionButtons, offersStatus, Control.requestedStatus,
        Handler.call]
  · intro c hc hs
    by_cases h1 : user.role = JsVal.str "victim" <;>
      by_cases h2 : request.status = JsVal.str "pending" <;>
      by_cases h3 : request.status = JsVal.str "in_progress" <;>
      by_cases h4 : user.role = JsVal.str "volunteer" <;>
      simp_all [RequestsPage.actionButtons, offersStatus, Control.requestedStatus,
        Handler.call]

/-- C3: on the requests list and on the dashboard alike, the change to fulfilled is
offered for a request exactly when the role of the user is victim and the status of
the request is in_progress; the two pages agree on every user and request. -/
theorem fulfilled_offered_iff (user : User) (request : Request) :
    (offersStatus (RequestsPage.actionButtons user request) "fulfilled" = true
      ↔ user.role = JsVal.str "victim" ∧ request.status = JsVal.str "in_progress")
    ∧ (offersStatus (DashboardPage.actionButtons user request) "fulfilled" = true
      ↔ user.role = JsVal.str "victim" ∧ request.status = JsVal.str "in_progress")
    ∧ offersStatus (RequestsPage.actionButtons user request) "fulfilled"
      = offersStatus (DashboardPage.actionButtons user request) "fulfilled" := by
  by_cases h1 : user.role = JsVal.str "victim" <;>
    by_cases h2 : request.status = JsVal.str "pending" <;>
    by_cases h3 : request.status = JsVal.str "in_progress" <;>
    by_cases h4 : user.role = JsVal.str "volunteer" <;>
    simp_all [RequestsPage.actionButtons, DashboardPage.actionButtons, offersStatus,
      Control.requestedStatus, Handler.call]

/-- C4: for a request whose status is fulfilled or cancelled, whatever the role, the
requests list and the dashboard render no action control at all. -/
theorem terminal_status_no_action (user : User) (request : Request)
    (h : request.status = JsVal.str "fulfilled" ∨ request.status = JsVal.str "cancelled") :
    RequestsPage.actionButtons user request = []
    ∧ DashboardPage.actionButtons user request = [] := by
  rcases h with h | h <;>
    simp [RequestsPage.actionButtons, DashboardPage.actionButtons, h]

/-- C4 at a cancelled request seen by its victim. -/
theorem terminal_status_no_action_witness :
    RequestsPage.actionButtons { role := JsVal.str "victim" }
        { id := "r7", status := JsVal.str "cancelled" } = []
    ∧ DashboardPage.actionButtons { role := JsVal.str "victim" }
        { id := "r7", status := JsVal.str "cancelled" } = [] :=
  terminal_status_no_action { role := JsVal.str "victim" }
    { id := "r7", status := JsVal.str "cancelled" } (Or.inr rfl)

/-! ## The lifecycle engine: transitions and the claim race -/

namespace Engine

/-- Writing a request leaves the actors alone. -/
theorem findActor_putRequest (store : Store) (request : StoredRequest) (actorId : String) :
    (store.putRequest request).findActor actorId = store.findActor actorId := rfl

/-- Replacing the records of one id makes a lookup of that id return the new record. -/
theorem find_map_replace (requests : List StoredRequest) (old updated : StoredRequest)
    (hfind : requests.find? (fun r => decide (r.id = updated.id)) = some old) :
    (requests.map fun r => if r.id = updated.id then updated else r).find?
        (fun r => decide (r.id = updated.id)) = some updated := by
  induction requests with
  | nil => simp at hfind
  | cons r rs ih =>
    rw [List.map_cons, List.find?_cons]
    by_cases hr : r.id = updated.id
    · simp [hr]
    · rw [List.find?_cons] at hfind
      simp only [hr, decide_False, if_false] at hfind ⊢
      exact ih hfind

/-- A request written under an id that is in use is read back under that id. -/
theorem findRequest_putRequest (store : Store) (requestId : String)
    (old updated : StoredRequest) (hid : updated.id = requestId)
    (hfind : store.findRequest requestId = some old) :
    (store.putRequest updated).findRequest requestId = some updated :=
  by
  subst hid
  exact find_map_replace store.requests old updated hfind

/-- A request read under an id carries that id. -/
theorem findRequest_id (store : Store) (requestId : String) (request : StoredRequest)
    (hfind : store.findRequest requestId = some request) : request.id = requestId := by
  have := List.find?_some hfind
  simpa using this

/-- A claim by a volunteer on a pending request succeeds and stores the request as in
progress under that volunteer. -/
theorem claim_pending (store : Store) (requestId volunteerId : String) (actor : Actor)
    (request : StoredRequest) (hactor : store.findActor volunteerId = some actor)
    (hrole : actor.role = Role.volunteer)
    (hfind : store.findRequest requestId = some request)
    (hpending : request.status = Status.pending) :
    claim store requestId volunteerId
      = (store.putRequest (request.claimedBy volunteerId),
         Outcome.ok (request.claimedBy volunteerId)) := by
  simp [claim, hactor, hrole, hfind, hpending]

/-- A claim by a volunteer on a request that is no longer pending is told
`AlreadyClaimed` and leaves the store as it was. -/
theorem claim_not_pending (store : Store) (requestId volunteerId : String) (actor : Actor)
    (request : StoredRequest) (hactor : store.findActor volunteerId = some actor)
    (hrole : actor.role = Role.volunteer)
    (hfind : store.findRequest requestId = some request)
    (hstatus : request.status ≠ Status.pending) :
    claim store requestId volunteerId = (store, Outcome.err EngineError.AlreadyClaimed) := by
  simp [claim, hactor, hrole, hfind, hstatus]

/-- Once the request is no longer pending, every further claim of a schedule of
volunteers loses and the store stays as it is. -/
theorem runClaims_not_pending (store : Store) (requestId : String) (request : StoredRequest)
    (hfind : store.findRequest requestId = some request)
    (hstatus : request.status ≠ Status.pending) (schedule : List String)
    (hvol : ∀ v ∈ schedule, ∃ a, store.findActor v = some a ∧ a.role = Role.volunteer) :
    runClaims store requestId schedule
      = (store, List.replicate schedule.length (Outcome.err EngineError.AlreadyClaimed)) := by
  induction schedule with
  | nil => rfl
  | cons v vs ih =>
    obtain ⟨a, ha, hr⟩ := hvol v (List.mem_cons_self v vs)
    have hvs : ∀ w ∈ vs, ∃ a, store.findActor w = some a ∧ a.role = Role.volunteer :=
      fun w hw => hvol w (List.mem_cons_of_mem v hw)
    simp only [runClaims, claim_not_pending store requestId v a request ha hr hfind hstatus,
      ih hvs, List.length_cons, List.replicate_succ]

/-- C6: N >= 2 concurrent claims by volunteers on one pending request, serialised by the
store in any order: every call returns, exactly one returns Ok, the N - 1 others return
AlreadyClaimed, and the stored request ends in_progress with one assigned volunteer,
the caller whose claim returned Ok. -/
theorem claim_race (store : Store) (requestId : String) (request : StoredRequest)
    (calls schedule : List String)
    (hfind : store.findRequest requestId = some request)
    (hpending : request.status = Status.pending)
    (hvol : ∀ v ∈ calls, ∃ a, store.findActor v = some a ∧ a.role = Role.volunteer)
    (hN : 2 ≤ calls.length) (hsched : schedule.Perm calls) :
    (runClaims store requestId schedule).2.length = calls.length
    ∧ (runClaims store requestId schedule).2.countP Outcome.isOk = 1
    ∧ (runClaims store requestId schedule).2.count (Outcome.err EngineError.AlreadyClaimed)
        = calls.length - 1
    ∧ ∃ winner final, winner ∈ calls
        ∧ (runClaims store requestId schedule).1.findRequest requestId = some final
        ∧ final.status = Status.in_progress
        ∧ final.assignedVolunteerId = some winner
        ∧ Outcome.ok final ∈ (runClaims store requestId schedule).2 := by
  have hlen : schedule.length = calls.length := hsched.length_eq
  have hvol2 : ∀ v ∈ schedule, ∃ a, store.findActor v = some a ∧ a.role = Role.volunteer :=
    fun v hv => hvol v (hsched.subset hv)
  cases schedule with
  | nil => simp at hlen; omega
  | cons v vs =>
    obtain ⟨a, ha, hr⟩ := hvol2 v (List.mem_cons_self v vs)
    have hid : request.id = requestId := findRequest_id store requestId request hfind
    have hstep := claim_pending store requestId v a request ha hr hfind hpending
    have hfind2 := findRequest_putRequest store requestId request (request.claimedBy v)
      hid hfind
    have hvs : ∀ w ∈ vs, ∃ a, (store.putRequest (request.claimedBy v)).findActor w = some a
          ∧ a.role = Role.volunteer :=
      fun w hw => hvol2 w (List.mem_cons_of_mem v hw)
    have hrest := runClaims_not_pending _ requestId _ hfind2
      (by simp [StoredRequest.claimedBy]) vs hvs
    have hrun : runClaims store requestId (v :: vs)
        = (store.putRequest (request.claimedBy v),
           Outcome.ok (request.claimedBy v)
             :: List.replicate vs.length (Outcome.err EngineError.AlreadyClaimed)) := by
      simp only [runClaims, hstep, hrest]
    rw [hrun]
    simp only [List.length_cons] at hlen
    refine ⟨by simp [← hlen], ?_, ?_, v, _, hsched.subset (List.mem_cons_self v vs), hfind2,
      rfl, rfl, List.mem_cons_self _ _⟩
    · simp [List.countP_cons, Outcome.isOk, List.countP_replicate]
    · simp [List.count_cons, List.count_replicate, ← hlen]

/-- C6 at two volunteers racing for request r1, the store serving v2 first. -/
theorem claim_race_witness :
    (runClaims exampleStore "r1" ["v2", "v1"]).2.countP Outcome.isOk = 1
    ∧ (runClaims exampleStore "r1" ["v2", "v1"]).2.count
        (Outcome.err EngineError.AlreadyClaimed) = 1 :=
  have h := claim_race exampleStore "r1" ⟨"r1", "u1", Status.pending, none⟩
    ["v1", "v2"] ["v2", "v1"] (by decide) rfl
    (by
      intro v hv
      simp only [List.mem_cons, List.mem_singleton, List.not_mem_nil, or_false] at hv
      rcases hv with rfl | rfl
      · exact ⟨⟨"v1", Role.volunteer⟩, by decide, rfl⟩
      · exact ⟨⟨"v2", Role.volunteer⟩, by decide, rfl⟩)
    (by decide) (List.Perm.swap "v1" "v2" [])
  ⟨h.2.1, h.2.2.1⟩

/-- C5: a request for a change of status whose pair (current status, requested status)
is none of pending to in_progress, in_progress to fulfilled and pending to cancelled
fails with InvalidTransition, whoever asks, and the store, hence the status of the
request, is left unchanged. -/
theorem setStatus_outside_table (store : Store) (requestId actorId : String)
    (newStatus : Status) (request : StoredRequest)
    (hfind : store.findRequest requestId = some request)
    (hout : ¬ ((request.status = Status.pending ∧ newStatus = Status.in_progress)
      ∨ (request.status = Status.in_progress ∧ newStatus = Status.fulfilled)
      ∨ (request.status = Status.pending ∧ newStatus = Status.cancelled))) :
    (setStatus store requestId actorId newStatus).2 = Outcome.err EngineError.InvalidTransition
    ∧ (setStatus store requestId actorId newStatus).1 = store
    ∧ ((setStatus store requestId actorId newStatus).1.findRequest requestId).map
        (fun r => r.status) = some request.status := by
  have htable : allowedTransition request.status newStatus = false := by
    cases hs : request.status <;> cases newStatus <;> simp_all [allowedTransition]
  simp [setStatus, hfind, htable]

/-- C5 at a fulfilled request that its victim asks to reopen. -/
theorem setStatus_outside_table_witness :
    (setStatus exampleStore "r2" "u1" Status.pending).2
        = Outcome.err EngineError.InvalidTransition
    ∧ (setStatus exampleStore "r2" "u1" Status.pending).1 = exampleStore
    ∧ ((setStatus exampleStore "r2" "u1" Status.pending).1.findRequest "r2").map
        (fun r => r.status) = some Status.fulfilled :=
  setStatus_outside_table exampleStore "r2" "u1" Status.pending
    ⟨"r2", "u1", Status.fulfilled, some "v1"⟩ (by decide) (by decide)

end Engine

/-! ## The new-request form: what is sent -/

/-- Dropping a prefix leaves nothing exactly when every element has the property. -/
theorem dropWhile_eq_nil_iff_all {α : Type} (p : α → Bool) (l : List α) :
    l.dropWhile p = [] ↔ ∀ x ∈ l, p x = true := by
  induction l with
  | nil => simp
  | cons a as ih =>
    by_cases h : p a = true
    · simp [List.dropWhile_cons, h, ih]
    · simp [List.dropWhile_cons, h]

/-- Trimming leaves nothing exactly when the text is all white space. -/
theorem trimChars_eq_nil_iff (cs : List Char) :
    trimChars cs = [] ↔ ∀ c ∈ cs, isJsWhiteSpace c = true := by
  unfold trimChars
  rw [List.reverse_eq_nil_iff, dropWhile_eq_nil_iff_all]
  constructor
  · intro h
    have h2 : cs.dropWhile isJsWhiteSpace = [] := by
      by_contra hne
      have hhead := List.head_dropWhile_not isJsWhiteSpace cs hne
      have hmem : (cs.dropWhile isJsWhiteSpace).head hne
          ∈ (cs.dropWhile isJsWhiteSpace).reverse :=
        List.mem_reverse.2 (List.head_mem hne)
      rw [h _ hmem] at hhead
      exact Bool.noConfusion hhead
    exact (dropWhile_eq_nil_iff_all _ _).1 h2
  · intro h x hx
    have h2 : cs.dropWhile isJsWhiteSpace = [] := (dropWhile_eq_nil_iff_all _ _).2 h
    simp [h2] at hx

/-- The trimmed text is empty exactly when the text has no character other than white
space. -/
theorem jsTrim_eq_empty_iff (s : String) :
    jsTrim s = "" ↔ ∀ c ∈ s.data, isJsWhiteSpace c = true := by
  rw [← trimChars_eq_nil_iff]
  unfold jsTrim
  constructor
  · intro h
    have := congrArg String.data h
    simpa using this
  · intro h
    rw [h]

/-- The test `if (s)` on a text asks whether it is non-empty. -/
theorem truthy_str (s : String) : (JsVal.str s).truthy = decide (s ≠ "") := rfl

namespace NewRequestPage

/-- A value that passes an `if (v)` test is not missing. -/
theorem not_missing_of_truthy (v : JsVal) (h : v.truthy = true) : v.isMissing = false := by
  cases v <;> simp_all [JsVal.truthy, JsVal.isMissing]

/-- In every state of the form each coordinate passes the `if (v)` test exactly when it
is not missing: a coordinate is a text typed or computed, or a stored value that
passed the test when it was copied into the form. -/
theorem reachable_coordinates (formData : FormData) (h : Reachable formData) :
    formData.location.latitude.truthy = !formData.location.latitude.isMissing
    ∧ formData.location.longitude.truthy = !formData.location.longitude.isMissing := by
  induction h with
  | initial => simp [initialFormData, JsVal.truthy, JsVal.isMissing]
  | prefill userLocation prev _ ih =>
    cases userLocation with
    | none => simpa [prefill] using ih
    | some location =>
      by_cases hl : (location.latitude.truthy && location.longitude.truthy) = true
      · have h1 : location.latitude.truthy = true := by
          simp only [Bool.and_eq_true] at hl; exact hl.1
        have h2 : location.longitude.truthy = true := by
          simp only [Bool.and_eq_true] at hl; exact hl.2
        simp [prefill, h1, h2, not_missing_of_truthy]
      · simpa [prefill, hl] using ih
  | change name value prev _ ih =>
    cases name <;> simp_all [handleChange, JsVal.truthy, JsVal.isMissing]
  | located latitude longitude address prev hlat hlon _ _ =>
    simp [setCurrentLocation, JsVal.truthy, JsVal.isMissing, hlat, hlon]

/-- What `handleSubmit` sends, in terms of its own tests. -/
theorem handleSubmit_sent (formData : FormData) (server : CreatePayload → FetchResult) :
    (handleSubmit formData server).sent
      = if jsTrim formData.description ≠ "" ∧ formData.location.latitude.truthy = true
            ∧ formData.location.longitude.truthy = true then
          some { type := formData.type,
                 description := jsTrim formData.description,
                 urgency := formData.urgency,
                 location :=
                   { latitude := formData.location.latitude.parseFloat,
                     longitude := formData.location.longitude.parseFloat,
                     address := formData.location.address } }
        else none := by
  unfold handleSubmit
  rw [truthy_str]
  by_cases h1 : jsTrim formData.description = ""
  · simp [h1]
  · by_cases h2 : formData.location.latitude.truthy = true
    · by_cases h3 : formData.location.longitude.truthy = true
      · simp only [h1, h2, h3, ne_eq, not_false_eq_true, decide_True, not_true_eq_false,
          or_self, if_false, and_self, if_true]
        split <;> rfl
      · simp [h1, h2, h3]
    · simp [h1, h2]


/-- What `handleSubmit` leaves behind when it sends nothing: one of its two validation
messages, `submitting` reset, no route pushed. -/
theorem handleSubmit_rejected (formData : FormData) (server : CreatePayload → FetchResult)
    (h : (handleSubmit formData server).sent = none) :
    ((handleSubmit formData server).error
        = JsVal.str "Please provide a description of what help you need"
      ∨ (handleSubmit formData server).error = JsVal.str
        "Location is required. Please use current location or enter coordinates manually.")
    ∧ (handleSubmit formData server).submitting = false
    ∧ (handleSubmit formData server).pushed = none := by
  unfold handleSubmit at h ⊢
  split
  · simp
  · split
    · simp
    · rename_i h1 h2
      simp only [h1, h2, if_false] at h
      split at h <;> simp at h

/-- C7: in every state the form can be in, `handleSubmit` sends a create request exactly
when the description is non-empty after trimming and neither coordinate is missing;
a description of white space only, or a missing coordinate, sends nothing; and
whenever nothing is sent the handler leaves a validation message in `error`, resets
`submitting` to false and pushes no route. -/
theorem handleSubmit_sends_iff (formData : FormData) (hreach : Reachable formData)
    (server : CreatePayload → FetchResult) :
    ((handleSubmit formData server).sent.isSome = true
      ↔ jsTrim formData.description ≠ ""
        ∧ formData.location.latitude.isMissing = false
        ∧ formData.location.longitude.isMissing = false)
    ∧ ((∀ c ∈ formData.description.data, isJsWhiteSpace c = true) →
        (handleSubmit formData server).sent = none)
    ∧ ((handleSubmit formData server).sent = none →
        ((handleSubmit formData server).error
            = JsVal.str "Please provide a description of what help you need"
          ∨ (handleSubmit formData server).error = JsVal.str
            "Location is required. Please use current location or enter coordinates manually.")
        ∧ (handleSubmit formData server).submitting = false
        ∧ (handleSubmit formData server).pushed = none) := by
  obtain ⟨hlat, hlon⟩ := reachable_coordinates formData hreach
  refine ⟨?_, ?_, handleSubmit_rejected formData server⟩
  · rw [handleSubmit_sent, hlat, hlon]
    by_cases h1 : jsTrim formData.description = "" <;>
      cases h2 : formData.location.latitude.isMissing <;>
      cases h3 : formData.location.longitude.isMissing <;> simp [h1]
  · intro hws
    have h1 : jsTrim formData.description = "" := (jsTrim_eq_empty_iff _).2 hws
    rw [handleSubmit_sent]
    simp [h1]

/-- C7 at a form filled in by hand, the description padded with blanks. -/
theorem handleSubmit_sends_iff_witness :
    (handleSubmit filledForm (fun _ => FetchResult.response true JsVal.undefined)).sent.isSome
      = true :=
  (handleSubmit_sends_iff filledForm
    (Reachable.change _ _ _ (Reachable.change _ _ _ (Reachable.change _ _ _
      Reachable.initial)))
    (fun _ => FetchResult.response true JsVal.undefined)).1.2
    ⟨by decide, by decide, by decide⟩

/-- C8 refuted: a form with latitude 91, outside [-90, 90], is a state the page can be
in, and submitting it raises no validation error: the create request is sent with
latitude 91 and, the server accepting it, the page moves on to the requests list. -/
theorem out_of_range_submission_is_sent :
    Reachable outOfRangeForm
    ∧ inRange outOfRangeForm.location.latitude.parseFloat
        outOfRangeForm.location.longitude.parseFloat = false
    ∧ handleSubmit outOfRangeForm (fun _ => FetchResult.response true JsVal.undefined)
      = { error := JsVal.str "",
          submitting := false,
          sent := some
            { type := "food", description := "Need water", urgency := "medium",
              location := { latitude := JsNumber.fin 91, longitude := JsNumber.fin 0,
                            address := JsVal.str "" } },
          pushed := some "/requests?created=true" } := by
  refine ⟨Reachable.change _ _ _ (Reachable.change _ _ _ (Reachable.change _ _ _
    Reachable.initial)), by decide!, by decide!⟩

/-- C8 as amended: the form applies no range check.  In every state the form can be in,
if the description is non-empty after trimming and neither coordinate is missing, a
submission whose coordinates lie outside latitude [-90, 90] or longitude [-180, 180]
is sent all the same, carrying those coordinates as `parseFloat` reads them. -/
theorem handleSubmit_sends_out_of_range (formData : FormData) (hreach : Reachable formData)
    (server : CreatePayload → FetchResult)
    (hdesc : jsTrim formData.description ≠ "")
    (hlat : formData.location.latitude.isMissing = false)
    (hlon : formData.location.longitude.isMissing = false)
    (hrange : inRange formData.location.latitude.parseFloat
      formData.location.longitude.parseFloat = false) :
    ∃ body : CreatePayload,
      (handleSubmit formData server).sent = some body
      ∧ body.location.latitude = formData.location.latitude.parseFloat
      ∧ body.location.longitude = formData.location.longitude.parseFloat
      ∧ inRange body.location.latitude body.location.longitude = false := by
  obtain ⟨h1, h2⟩ := reachable_coordinates formData hreach
  refine ⟨{ type := formData.type,
            description := jsTrim formData.description,
            urgency := formData.urgency,
            location :=
              { latitude := formData.location.latitude.parseFloat,
                longitude := formData.location.longitude.parseFloat,
                address := formData.location.address } }, ?_, rfl, rfl, hrange⟩
  rw [handleSubmit_sent, h1, h2, hlat, hlon]
  simp [hdesc]

/-- C8 as amended, at the form with latitude 91 and a server that fails. -/
theorem handleSubmit_sends_out_of_range_witness :
    ∃ body : CreatePayload,
      (handleSubmit outOfRangeForm (fun _ => FetchResult.failure)).sent = some body
      ∧ body.location.latitude = outOfRangeForm.location.latitude.parseFloat
      ∧ body.location.longitude = outOfRangeForm.location.longitude.parseFloat
      ∧ inRange body.location.latitude body.location.longitude = false :=
  handleSubmit_sends_out_of_range outOfRangeForm
    (Reachable.change _ _ _ (Reachable.change _ _ _ (Reachable.change _ _ _
      Reachable.initial)))
    (fun _ => FetchResult.failure) (by decide) (by decide) (by decide) (by decide!)

end NewRequestPage

/-! ## The suggestions page: match reasons -/

namespace SuggestionsPage

/-- The list `getMatchReasons` builds is the concatenation of four optional reasons, in
the order distance, urgency, skill, recency. -/
theorem getMatchReasons_eq (user : Option User) (now : Int) (s : Suggestion) :
    getMatchReasons user now s
      = (if s.distance.toNumber.le (JsNumber.fin 5) = true then ["Very close to you"]
          else if s.distance.toNumber.le (JsNumber.fin 15) = true then ["Nearby"] else [])
        ++ (if s.urgency = JsVal.str "high" then ["High priority"] else [])
        ++ (if skillsInclude user s.type = true then ["Matches your skills"] else [])
        ++ (if (((JsNumber.fin (now : ℚ)).sub (timeValue s.created_at)).divConst
              (1000 * 60 * 60)).lt (JsNumber.fin 2) = true then ["Recent request"]
            else []) := by
  unfold getMatchReasons
  simp only [List.nil_append]
  split <;> split <;> split <;> split <;> (try split) <;> simp

/-- The age test of `getMatchReasons` on a valid creation time: the request is less
than two hours old, counted in milliseconds. -/
theorem recent_iff (now t : Int) :
    (((JsNumber.fin (now : ℚ)).sub (timeValue (some t))).divConst
        (1000 * 60 * 60)).lt (JsNumber.fin 2) = true
      ↔ now - t < 2 * 60 * 60 * 1000 := by
  simp only [timeValue, JsNumber.sub, JsNumber.divConst, JsNumber.lt, decide_eq_true_eq]
  rw [div_lt_iff₀ (by norm_num)]
  have h : ((now : ℚ) - (t : ℚ)) = ((now - t : Int) : ℚ) := by push_cast; ring
  rw [h]
  constructor
  · intro hlt
    have : ((now - t : Int) : ℚ) < ((2 * 60 * 60 * 1000 : Int) : ℚ) := by
      push_cast; push_cast at hlt; linarith
    exact_mod_cast this
  · intro hlt
    have : ((now - t : Int) : ℚ) < ((2 * 60 * 60 * 1000 : Int) : ℚ) := by exact_mod_cast hlt
    push_cast at this ⊢; linarith


/-- C9: a suggestion at most 5 km away, of urgency high, of a type among the skills of
the volunteer, created less than two hours before the clock reading, gets exactly the
four reasons, in this order. -/
theorem getMatchReasons_all_four (u : User) (skills : List JsVal) (now : Int)
    (s : Suggestion) (d : ℚ) (t : Int)
    (hdistance : s.distance = JsVal.num d) (hclose : d ≤ 5)
    (hurgency : s.urgency = JsVal.str "high")
    (hskills : u.skills = some skills) (hskill : s.type ∈ skills)
    (hcreated : s.created_at = some t) (hrecent : now - t < 2 * 60 * 60 * 1000) :
    getMatchReasons (some u) now s
      = ["Very close to you", "High priority", "Matches your skills", "Recent request"] := by
  have h1 : s.distance.toNumber.le (JsNumber.fin 5) = true := by
    simp [hdistance, JsVal.toNumber, JsNumber.le, hclose]
  have h3 : skillsInclude (some u) s.type = true := by
    simp [skillsInclude, hskills, hskill]
  have h4 := (recent_iff now t).2 hrecent
  rw [getMatchReasons_eq, hcreated, if_pos h1, if_pos hurgency, if_pos h3, if_pos h4]
  rfl

/-- C9 at the scenario of the specification: a volunteer with the skill food; request A,
food, urgency high, 1.4 km away, created ten minutes before the clock reading. -/
theorem getMatchReasons_all_four_witness :
    getMatchReasons (some { role := JsVal.str "volunteer", skills := some [JsVal.str "food"] })
        600000
        { distance := JsVal.num (14 / 10), urgency := JsVal.str "high",
          type := JsVal.str "food", created_at := some 0 }
      = ["Very close to you", "High priority", "Matches your skills", "Recent request"] :=
  getMatchReasons_all_four
    { role := JsVal.str "volunteer", skills := some [JsVal.str "food"] }
    [JsVal.str "food"] 600000
    { distance := JsVal.num (14 / 10), urgency := JsVal.str "high",
      type := JsVal.str "food", created_at := some 0 }
    (14 / 10) 0 rfl (by norm_num) rfl rfl (by simp) rfl (by decide)

/-- The reasons contain Very close to you exactly when the first distance test holds. -/
theorem very_close_mem_iff (user : Option User) (now : Int) (s : Suggestion) :
    "Very close to you" ∈ getMatchReasons user now s
      ↔ s.distance.toNumber.le (JsNumber.fin 5) = true := by
  rw [getMatchReasons_eq]
  simp only [List.mem_append]
  split_ifs <;> simp_all

/-- The reasons contain Nearby exactly when the first distance test fails and the second
holds. -/
theorem nearby_mem_iff (user : Option User) (now : Int) (s : Suggestion) :
    "Nearby" ∈ getMatchReasons user now s
      ↔ s.distance.toNumber.le (JsNumber.fin 5) = false
        ∧ s.distance.toNumber.le (JsNumber.fin 15) = true := by
  rw [getMatchReasons_eq]
  simp only [List.mem_append]
  split_ifs <;> simp_all

/-- C10 refuted: a suggestion whose distance is null carries no distance, yet the
comparison `null <= 5` holds in JavaScript and the reasons contain Very close to you.
Here request B of the specification (medical, urgency low, created twenty hours before
the clock reading) with a null distance, for a volunteer with the skill food. -/
theorem null_distance_is_very_close :
    JsVal.null.isMissing = true
    ∧ getMatchReasons (some { role := JsVal.str "volunteer", skills := some [JsVal.str "food"] })
        72000000
        { distance := JsVal.null, urgency := JsVal.str "low", type := JsVal.str "medical",
          created_at := some 0 }
      = ["Very close to you"] := by
  refine ⟨rfl, ?_⟩
  rw [getMatchReasons_eq]
  have h4 : ¬ ((72000000 : Int) - 0 < 2 * 60 * 60 * 1000) := by decide
  rw [if_neg (fun h => h4 ((recent_iff _ _).1 h))]
  simp [JsVal.toNumber, JsNumber.le, skillsInclude]

/-- C10 as amended: for a suggestion whose distance is a number d, the reasons contain
Very close to you exactly when d <= 5 and Nearby exactly when 5 < d <= 15, hence
neither when d > 15; for a suggestion without a distance member (undefined) they
contain neither; and for no suggestion at all do they contain both. -/
theorem distance_reason_bands (user : Option User) (now : Int) (s : Suggestion) (d : ℚ) :
    ("Very close to you" ∈ getMatchReasons user now { s with distance := JsVal.num d }
      ↔ d ≤ 5)
    ∧ ("Nearby" ∈ getMatchReasons user now { s with distance := JsVal.num d }
      ↔ 5 < d ∧ d ≤ 15)
    ∧ "Very close to you" ∉ getMatchReasons user now { s with distance := JsVal.undefined }
    ∧ "Nearby" ∉ getMatchReasons user now { s with distance := JsVal.undefined }
    ∧ ¬ ("Very close to you" ∈ getMatchReasons user now s
        ∧ "Nearby" ∈ getMatchReasons user now s) := by
  refine ⟨?_, ?_, ?_, ?_, ?_⟩
  · rw [very_close_mem_iff]
    simp [JsVal.toNumber, JsNumber.le]
  · rw [nearby_mem_iff]
    simp [JsVal.toNumber, JsNumber.le]
  · rw [very_close_mem_iff]
    simp [JsVal.toNumber, JsNumber.le]
  · rw [nearby_mem_iff]
    simp [JsVal.toNumber, JsNumber.le]
  · rw [very_close_mem_iff, nearby_mem_iff]
    intro h
    rw [h.1] at h
    exact Bool.noConfusion h.2.1

/-- The reasons contain High priority exactly when the urgency test holds. -/
theorem high_priority_mem_iff (user : Option User) (now : Int) (s : Suggestion) :
    "High priority" ∈ getMatchReasons user now s ↔ s.urgency = JsVal.str "high" := by
  rw [getMatchReasons_eq]
  simp only [List.mem_append]
  split_ifs <;> simp_all

/-- The reasons contain Matches your skills exactly when the skill test holds. -/
theorem skills_mem_iff (user : Option User) (now : Int) (s : Suggestion) :
    "Matches your skills" ∈ getMatchReasons user now s ↔ skillsInclude user s.type = true := by
  rw [getMatchReasons_eq]
  simp only [List.mem_append]
  split_ifs <;> simp_all

/-- The reasons contain Recent request exactly when the age test holds. -/
theorem recent_mem_iff (user : Option User) (now : Int) (s : Suggestion) :
    "Recent request" ∈ getMatchReasons user now s
      ↔ (((JsNumber.fin (now : ℚ)).sub (timeValue s.created_at)).divConst
          (1000 * 60 * 60)).lt (JsNumber.fin 2) = true := by
  rw [getMatchReasons_eq]
  simp only [List.mem_append]
  split_ifs <;> simp_all

/-- C11: the reasons contain Recent request exactly when the request was created
strictly less than two hours (7 200 000 ms) before the clock reading, so never at an
age of two hours or more; a request whose creation time is not a valid date never
gets the reason. -/
theorem recent_reason_iff (user : Option User) (now : Int) (s : Suggestion) (t : Int) :
    ("Recent request" ∈ getMatchReasons user now { s with created_at := some t }
      ↔ now - t < 2 * 60 * 60 * 1000)
    ∧ "Recent request" ∉ getMatchReasons user (t + 2 * 60 * 60 * 1000)
        { s with created_at := some t }
    ∧ "Recent request" ∉ getMatchReasons user now { s with created_at := none } := by
  refine ⟨?_, ?_, ?_⟩
  · rw [recent_mem_iff]
    exact recent_iff now t
  · rw [recent_mem_iff]
    intro h
    have := (recent_iff _ t).1 h
    omega
  · rw [recent_mem_iff]
    simp [timeValue, JsNumber.sub, JsNumber.divConst, JsNumber.lt]

/-- C12: the reasons contain Matches your skills exactly when there is a user record with
a skills list and the type of the suggestion is a member of that list; without a user
record, or without a skills list, the reason is never given; request B of the
specification, of type medical, gets no skill reason for a volunteer with the skill
food. -/
theorem skill_reason_iff (user : Option User) (now : Int) (s : Suggestion) (u : User) :
    ("Matches your skills" ∈ getMatchReasons user now s
      ↔ ∃ v skills, user = some v ∧ v.skills = some skills ∧ s.type ∈ skills)
    ∧ "Matches your skills" ∉ getMatchReasons none now s
    ∧ "Matches your skills" ∉ getMatchReasons (some { u with skills := none }) now s
    ∧ "Matches your skills" ∉
        getMatchReasons (some { u with skills := some [JsVal.str "food"] }) now
          { s with type := JsVal.str "medical" } := by
  refine ⟨?_, ?_, ?_, ?_⟩
  · rw [skills_mem_iff]
    cases user with
    | none => simp [skillsInclude]
    | some v =>
      cases hs : v.skills with
      | none => simp [skillsInclude, hs]
      | some skills => simp [skillsInclude, hs]
  · rw [skills_mem_iff]; simp [skillsInclude]
  · rw [skills_mem_iff]; simp [skillsInclude]
  · rw [skills_mem_iff]; simp [skillsInclude]

/-- C13: the list of reasons is a sublist of distance reason, High priority, Matches your
skills, Recent request in this order, the distance reason being Very close to you or
Nearby; it has no duplicates and at most four entries; and it contains High priority
exactly when the urgency is high. -/
theorem getMatchReasons_ordered (user : Option User) (now : Int) (s : Suggestion) :
    (List.Sublist (getMatchReasons user now s)
        ["Very close to you", "High priority", "Matches your skills", "Recent request"]
      ∨ List.Sublist (getMatchReasons user now s)
        ["Nearby", "High priority", "Matches your skills", "Recent request"])
    ∧ (getMatchReasons user now s).Nodup
    ∧ (getMatchReasons user now s).length ≤ 4
    ∧ ("High priority" ∈ getMatchReasons user now s ↔ s.urgency = JsVal.str "high") := by
  refine ⟨?_, ?_, ?_, high_priority_mem_iff user now s⟩
  · rw [getMatchReasons_eq]
    split_ifs <;> decide
  · rw [getMatchReasons_eq]
    split_ifs <;> decide
  · rw [getMatchReasons_eq]
    split_ifs <;> decide

/-- C14 refuted: the clock is read inside `getMatchReasons`, and two calls with the same
suggestion and the same user return different lists when the clock has moved on: ten
minutes after the creation of the request the list ends with Recent request, three
hours after it the entry is gone. -/
theorem clock_changes_reasons :
    getMatchReasons (some { role := JsVal.str "volunteer", skills := some [JsVal.str "food"] })
        600000
        { distance := JsVal.num (14 / 10), urgency := JsVal.str "high",
          type := JsVal.str "food", created_at := some 0 }
      = ["Very close to you", "High priority", "Matches your skills", "Recent request"]
    ∧ getMatchReasons
        (some { role := JsVal.str "volunteer", skills := some [JsVal.str "food"] })
        10800000
        { distance := JsVal.num (14 / 10), urgency := JsVal.str "high",
          type := JsVal.str "food", created_at := some 0 }
      = ["Very close to you", "High priority", "Matches your skills"] := by
  constructor <;> decide!

/-- C14 as amended: the list depends on the clock reading, and only through its last
entry.  For every user and suggestion there is a list of reasons, the same at every
clock reading, such that the result at the reading `now` is that list followed by
Recent request exactly when the creation time is valid and less than two hours before
`now`; at one and the same reading the result is one and the same. -/
theorem getMatchReasons_clock (user : Option User) (s : Suggestion) :
    ∃ base : List String, ∀ now : Int,
      getMatchReasons user now s
        = base ++ (match s.created_at with
            | some t => if now - t < 2 * 60 * 60 * 1000 then ["Recent request"] else []
            | none => []) := by
  refine ⟨(if s.distance.toNumber.le (JsNumber.fin 5) = true then ["Very close to you"]
          else if s.distance.toNumber.le (JsNumber.fin 15) = true then ["Nearby"] else [])
        ++ (if s.urgency = JsVal.str "high" then ["High priority"] else [])
        ++ (if skillsInclude user s.type = true then ["Matches your skills"] else []),
    fun now => ?_⟩
  rw [getMatchReasons_eq]
  congr 1
  cases hc : s.created_at with
  | none => simp [timeValue, JsNumber.sub, JsNumber.divConst, JsNumber.lt]
  | some t =>
    by_cases h : now - t < 2 * 60 * 60 * 1000
    · rw [if_pos ((recent_iff now t).2 h)]
      exact (if_pos h).symm
    · have h2 : ¬ ((((JsNumber.fin (now : ℚ)).sub (timeValue (some t))).divConst
          (1000 * 60 * 60)).lt (JsNumber.fin 2) = true) := fun hh => h ((recent_iff now t).1 hh)
      rw [if_neg h2]
      exact (if_neg h).symm

end SuggestionsPage

/-! ## The suggestions page: the location check -/

namespace SuggestionsPage

/-- The ranking lists the suggestions in the order received. -/
theorem ranking_map_snd {α : Type} (suggestions : List α) :
    (ranking suggestions).map Prod.snd = suggestions := by
  simp [ranking, List.map_map, Function.comp_def]

/-- Shifting the indices of an enumeration by one. -/
theorem enumFrom_succ_map {α : Type} (l : List α) (n : Nat) :
    (List.enumFrom n l).map (fun p => (p.1 + 1, p.2)) = List.enumFrom (n + 1) l := by
  induction l generalizing n with
  | nil => rfl
  | cons a as ih => simp [List.enumFrom, ih]

/-- The ranks of a ranking are 1, 2, ... in the order of the list. -/
theorem ranking_map_fst {α : Type} (suggestions : List α) :
    (ranking suggestions).map Prod.fst = List.range' 1 suggestions.length := by
  unfold ranking List.enum
  rw [enumFrom_succ_map, List.enumFrom_map_fst]

/-- The suggestions a ranked content renders are those it was given, in order. -/
theorem rendered_ranked (user : Option User) (now : Int) (suggestions : List Suggestion) :
    (Content.ranked ((ranking suggestions).map fun p =>
        { rank := p.1, suggestion := p.2,
          matchReasons := getMatchReasons user now p.2 })).rendered = suggestions := by
  simp only [Content.rendered, List.map_map, Function.comp_def]
  exact ranking_map_snd suggestions

/-- C15, evaluated at a volunteer on the equator: with the stored location latitude 0,
longitude 10, a valid location, the page shows the Location Required notice and renders
none of the suggestions it was given, and likewise at longitude 0.  In general, for a
stored location with numeric coordinates the notice is shown exactly when one of the
two is 0, and otherwise every suggestion received is rendered; without a stored
location, or with a coordinate undefined or null, the notice is shown.  The list the
server sends is stored as it is, and its refusal for want of a location leads to the
profile page. -/
theorem zero_coordinate_shows_location_required (u : User) (now : Int)
    (suggestions : List Suggestion) (lat lon : ℚ) (other : JsVal) :
    content (withLocation { role := JsVal.str "volunteer" } (JsVal.num 0) (JsVal.num 10))
        now suggestions = Content.locationRequired
    ∧ content (withLocation { role := JsVal.str "volunteer" } (JsVal.num 10) (JsVal.num 0))
        now suggestions = Content.locationRequired
    ∧ (content (withLocation u (JsVal.num lat) (JsVal.num lon)) now suggestions
        = Content.locationRequired ↔ lat = 0 ∨ lon = 0)
    ∧ (content (withLocation u (JsVal.num lat) (JsVal.num lon)) now suggestions).rendered
        = (if lat = 0 ∨ lon = 0 then [] else suggestions)
    ∧ content { u with location := none } now suggestions = Content.locationRequired
    ∧ content (withLocation u JsVal.undefined other) now suggestions
        = Content.locationRequired
    ∧ content (withLocation u other JsVal.null) now suggestions
        = Content.locationRequired
    ∧ (fetchSuggestions (SuggestionsReply.ok suggestions)).suggestions = some suggestions
    ∧ (fetchSuggestions
        (SuggestionsReply.notOk 400 "Location is required for suggestions")).pushed
        = some "/profile?setup=true&reason=location" := by
  refine ⟨?_, ?_, ?_, ?_, ?_, ?_, ?_, rfl, by decide⟩
  · simp [content, coordinate, withLocation, JsVal.truthy]
  · simp [content, coordinate, withLocation, JsVal.truthy]
  · by_cases h1 : lat = 0 <;> by_cases h2 : lon = 0 <;>
      simp [content, coordinate, withLocation, JsVal.truthy, h1, h2]
    split <;> simp
  · by_cases h1 : lat = 0
    · simp [content, coordinate, withLocation, JsVal.truthy, h1, Content.rendered]
    · by_cases h2 : lon = 0
      · simp [content, coordinate, withLocation, JsVal.truthy, h2, Content.rendered]
      · simp only [content, coordinate, withLocation, JsVal.truthy, h1, h2, ne_eq,
          not_false_eq_true, decide_True, not_true_eq_false, or_self, if_false]
        split
        · rename_i h0
          have : suggestions = [] := List.length_eq_zero.1 h0
          simp [Content.rendered, this]
        · exact rendered_ranked _ now suggestions
  · simp [content, coordinate, withLocation, JsVal.truthy]
  · simp [content, coordinate, withLocation, JsVal.truthy]
  · simp [content, coordinate, withLocation, JsVal.truthy]

end SuggestionsPage

/-! ## The handlers: what a response that is not OK leads to -/

/-- C18, evaluated on the dashboard: after a response that is not OK `markAsFulfilled`
raises no alert, sets no error state, fetches nothing and pushes no route, so nothing
is shown to the user, whatever the error the server reported; the four other handlers
that claim a request or change its status (`volunteerForRequest` of the requests list
and of the map, `updateRequestStatus`, `handleVolunteer`) do show the failure. -/
theorem markAsFulfilled_swallows_failure (requestId status : String) (error : JsVal) :
    DashboardPage.markAsFulfilled requestId (FetchResult.response false error)
      = { call := ⟨"PUT", "/api/requests/" ++ requestId ++ "/status", some "fulfilled"⟩,
          alerts := [], error := none, refreshed := false, pushed := none,
          logged := false }
    ∧ (DashboardPage.markAsFulfilled requestId
        (FetchResult.response false error)).surfaced = false
    ∧ (DashboardPage.markAsFulfilled requestId FetchResult.failure).surfaced = false
    ∧ (RequestsPage.updateRequestStatus requestId status
        (FetchResult.response false error)).surfaced = true
    ∧ (RequestsPage.volunteerForRequest requestId
        (FetchResult.response false error)).surfaced = true
    ∧ (MapPage.volunteerForRequest requestId
        (FetchResult.response false error)).surfaced = true
    ∧ (VolunteerPage.handleVolunteer requestId
        (FetchResult.response false error)).surfaced = true := by
  have hor : ∀ fallback : String, fallback ≠ "" →
      (error.orElse (JsVal.str fallback)).truthy = true := by
    intro fallback hf
    unfold JsVal.orElse
    by_cases h : error.truthy = true
    · rw [if_pos h]; exact h
    · rw [if_neg h]; simp [JsVal.truthy, hf]
  refine ⟨rfl, rfl, rfl, ?_, ?_, ?_, ?_⟩
  · simp [RequestsPage.updateRequestStatus, HandlerOutcome.surfaced]
  · simp [RequestsPage.volunteerForRequest, HandlerOutcome.surfaced]
  · simp [MapPage.volunteerForRequest, HandlerOutcome.surfaced]
  · simp only [VolunteerPage.handleVolunteer, HandlerOutcome.surfaced]
    simp [hor "Failed to volunteer for request" (by decide)]

/-! ## The query built from the filters -/

namespace RequestsPage

/-- The parameters of `fetchRequests`, filter by filter. -/
theorem fetchRequestsParams_eq (f : Filters) :
    fetchRequestsParams f
      = (if f.type ≠ "" then [("type", f.type)] else [])
        ++ (if f.urgency ≠ "" then [("urgency", f.urgency)] else [])
        ++ (if f.status ≠ "" then [("status", f.status)] else [])
        ++ (if f.maxDistance ≠ "" then [("max_distance", f.maxDistance)] else []) := by
  unfold fetchRequestsParams appendFilters Filters.entries
  by_cases h1 : f.type = "" <;> by_cases h2 : f.urgency = "" <;>
    by_cases h3 : f.status = "" <;> by_cases h4 : f.maxDistance = "" <;>
    simp [List.foldl, h1, h2, h3, h4]

end RequestsPage

namespace MapPage

/-- The parameters of `fetchMapData`, filter by filter. -/
theorem fetchMapDataParams_eq (f : Filters) :
    fetchMapDataParams f
      = (if f.type ≠ "" then [("type", f.type)] else [])
        ++ (if f.urgency ≠ "" then [("urgency", f.urgency)] else [])
        ++ (if f.maxDistance ≠ "" then [("max_distance", f.maxDistance)] else []) := by
  unfold fetchMapDataParams appendFilters Filters.entries
  by_cases h1 : f.type = "" <;> by_cases h2 : f.urgency = "" <;>
    by_cases h4 : f.maxDistance = "" <;>
    simp [List.foldl, h1, h2, h4]

end MapPage

/-- C19: in the query of `fetchRequests` and in that of `fetchMapData`, a parameter
(name, value) is present exactly when it is one of the filters of the page with a
non-empty value, under its own name or, for maxDistance, under the name max_distance,
with the value of the filter unchanged; no name occurs twice; the all-empty filter
state gives the empty query string; and the values of the selects are written into the
query string as they are. -/
theorem filters_query (f : RequestsPage.Filters) (g : MapPage.Filters)
    (name value : String) :
    ((name, value) ∈ RequestsPage.fetchRequestsParams f
      ↔ value ≠ "" ∧ ((name = "type" ∧ value = f.type)
          ∨ (name = "urgency" ∧ value = f.urgency)
          ∨ (name = "status" ∧ value = f.status)
          ∨ (name = "max_distance" ∧ value = f.maxDistance)))
    ∧ ((RequestsPage.fetchRequestsParams f).map Prod.fst).Nodup
    ∧ ((name, value) ∈ MapPage.fetchMapDataParams g
      ↔ value ≠ "" ∧ ((name = "type" ∧ value = g.type)
          ∨ (name = "urgency" ∧ value = g.urgency)
          ∨ (name = "max_distance" ∧ value = g.maxDistance)))
    ∧ ((MapPage.fetchMapDataParams g).map Prod.fst).Nodup
    ∧ toQueryString (RequestsPage.fetchRequestsParams {}) = ""
    ∧ toQueryString (MapPage.fetchMapDataParams {}) = ""
    ∧ toQueryString (RequestsPage.fetchRequestsParams
        { type := "food", urgency := "high", status := "in_progress", maxDistance := "25" })
      = "type=food&urgency=high&status=in_progress&max_distance=25"
    ∧ toQueryString (MapPage.fetchMapDataParams { urgency := "low", maxDistance := "5" })
      = "urgency=low&max_distance=5" := by
  refine ⟨?_, ?_, ?_, ?_, by decide, by decide, by decide, by decide⟩
  · rw [RequestsPage.fetchRequestsParams_eq]
    by_cases h1 : f.type = "" <;> by_cases h2 : f.urgency = "" <;>
      by_cases h3 : f.status = "" <;> by_cases h4 : f.maxDistance = "" <;>
      simp [h1, h2, h3, h4] <;> aesop
  · rw [RequestsPage.fetchRequestsParams_eq]
    by_cases h1 : f.type = "" <;> by_cases h2 : f.urgency = "" <;>
      by_cases h3 : f.status = "" <;> by_cases h4 : f.maxDistance = "" <;>
      simp [h1, h2, h3, h4]
  · rw [MapPage.fetchMapDataParams_eq]
    by_cases h1 : g.type = "" <;> by_cases h2 : g.urgency = "" <;>
      by_cases h4 : g.maxDistance = "" <;>
      simp [h1, h2, h4] <;> aesop
  · rw [MapPage.fetchMapDataParams_eq]
    by_cases h1 : g.type = "" <;> by_cases h2 : g.urgency = "" <;>
      by_cases h4 : g.maxDistance = "" <;>
      simp [h1, h2, h4]

/-! ## The suggestion assembler: ranking and scores -/

namespace Engine

/-- The ranking order in terms of the three keys. -/
theorem rankedBefore_iff (a b : ScoredRequest) :
    rankedBefore a b = true
      ↔ b.score < a.score
        ∨ (a.score = b.score
          ∧ (a.distance < b.distance
            ∨ (a.distance = b.distance ∧ a.request.createdAt ≤ b.request.createdAt))) := by
  simp [rankedBefore]

/-- Of two scored requests one is ranked before the other. -/
theorem rankedBefore_total (a b : ScoredRequest) :
    rankedBefore a b = true ∨ rankedBefore b a = true := by
  rw [rankedBefore_iff, rankedBefore_iff]
  rcases lt_trichotomy a.score b.score with h | h | h
  · exact Or.inr (Or.inl h)
  · rcases lt_trichotomy a.distance b.distance with hd | hd | hd
    · exact Or.inl (Or.inr ⟨h, Or.inl hd⟩)
    · rcases le_total a.request.createdAt b.request.createdAt with hc | hc
      · exact Or.inl (Or.inr ⟨h, Or.inr ⟨hd, hc⟩⟩)
      · exact Or.inr (Or.inr ⟨h.symm, Or.inr ⟨hd.symm, hc⟩⟩)
    · exact Or.inr (Or.inr ⟨h.symm, Or.inl hd⟩)
  · exact Or.inl (Or.inl h)

/-- The ranking order is transitive. -/
theorem rankedBefore_trans (a b c : ScoredRequest) (hab : rankedBefore a b = true)
    (hbc : rankedBefore b c = true) : rankedBefore a c = true := by
  rw [rankedBefore_iff] at hab hbc ⊢
  rcases hab with h1 | ⟨h1, h1d⟩
  · rcases hbc with h2 | ⟨h2, _⟩
    · exact Or.inl (lt_trans h2 h1)
    · exact Or.inl (h2 ▸ h1)
  · rcases hbc with h2 | ⟨h2, h2d⟩
    · exact Or.inl (h1 ▸ h2)
    · refine Or.inr ⟨h1.trans h2, ?_⟩
      rcases h1d with d1 | ⟨d1, c1⟩
      · rcases h2d with d2 | ⟨d2, _⟩
        · exact Or.inl (lt_trans d1 d2)
        · exact Or.inl (d2 ▸ d1)
      · rcases h2d with d2 | ⟨d2, c2⟩
        · exact Or.inl (d1 ▸ d2)
        · exact Or.inr ⟨d1.trans d2, le_trans c1 c2⟩

/-- The sort of step (f) returns its input in ranking order. -/
theorem rank_sorted (entries : List ScoredRequest) :
    List.Sorted (fun a b => rankedBefore a b = true) (rank entries) :=
  @List.sorted_insertionSort _ (fun a b => rankedBefore a b = true) _
    ⟨rankedBefore_total⟩ ⟨rankedBefore_trans⟩ entries

/-- The sort of step (f) keeps every entry, once. -/
theorem rank_perm (entries : List ScoredRequest) : (rank entries).Perm entries :=
  List.perm_insertionSort _ entries

/-- In a ranked list the scores never increase from an entry to the next, and between
neighbours of equal score the distance never decreases. -/
theorem rank_chain (entries : List ScoredRequest) :
    List.Chain' (fun a b => b.score ≤ a.score ∧ (a.score = b.score → a.distance ≤ b.distance))
      (rank entries) := by
  refine List.Chain'.imp ?_ (List.Pairwise.chain' (rank_sorted entries))
  intro a b hab
  rw [rankedBefore_iff] at hab
  rcases hab with h | ⟨h, hd⟩
  · exact ⟨le_of_lt h, fun he => absurd (he ▸ h) (lt_irrefl _)⟩
  · refine ⟨le_of_eq h.symm, fun _ => ?_⟩
    rcases hd with hd | ⟨hd, _⟩
    · exact le_of_lt hd
    · exact le_of_eq hd

/-- A successful `suggest` returns a list in ranking order. -/
theorem suggest_eq_rank (w : Weights) (distanceKm : Coordinate → Coordinate → ℚ) (now : Int)
    (volunteer : Volunteer) (filters : SuggestFilters) (requests : List Candidate)
    (ranked : List ScoredRequest)
    (h : suggest w distanceKm now volunteer filters requests = SuggestOutcome.ok ranked) :
    ∃ entries, ranked = rank entries
      ∧ ∀ e ∈ entries, e.score = score w now volunteer e.request e.distance := by
  unfold suggest at h
  cases hloc : volunteer.location with
  | none => simp [hloc] at h
  | some here =>
    simp only [hloc, SuggestOutcome.ok.injEq] at h
    refine ⟨_, h.symm, ?_⟩
    intro e he
    simp only [List.mem_filter, List.mem_filterMap, Option.map_eq_some'] at he
    obtain ⟨⟨r, _, there, _, rfl⟩, _⟩ := he
    rfl

end Engine

namespace SuggestionsPage

/-- A ranking numbers its entries from 1. -/
theorem ranking_eq_enumFrom {α : Type} (suggestions : List α) :
    ranking suggestions = List.enumFrom 1 suggestions := by
  unfold ranking List.enum
  exact enumFrom_succ_map suggestions 0

/-- Neighbours of an enumeration carry consecutive indices and are neighbours of the
list. -/
theorem chain'_enumFrom {α : Type} (R : α → α → Prop) (l : List α) (n : Nat)
    (h : List.Chain' R l) :
    List.Chain' (fun p q : Nat × α => q.1 = p.1 + 1 ∧ R p.2 q.2) (List.enumFrom n l) := by
  induction l generalizing n with
  | nil => exact List.chain'_nil
  | cons a as ih =>
    cases as with
    | nil => exact List.chain'_singleton _
    | cons b bs =>
      rw [List.chain'_cons] at h
      simp only [List.enumFrom]
      rw [List.chain'_cons]
      exact ⟨⟨rfl, h.1⟩, ih (n + 1) h.2⟩

end SuggestionsPage

namespace Engine

/-- C16: when `suggest` succeeds and its list is sent to the suggestions page, the page
stores it as received and ranks the entries 1, 2, ... in that order, and from each entry to the next the
score shown does not increase and, at equal score, the distance shown does not
decrease; what the page renders is that list in that order, or nothing when it shows
the location notice instead. -/
theorem suggest_ranking_sorted (w : Weights) (distanceKm : Coordinate → Coordinate → ℚ)
    (now : Int) (volunteer : Volunteer) (filters : SuggestFilters)
    (requests : List Candidate) (ranked : List ScoredRequest)
    (h : suggest w distanceKm now volunteer filters requests = SuggestOutcome.ok ranked)
    (user : User) (clock : Int) :
    List.Chain'
        (fun p q : Nat × SuggestionsPage.Suggestion =>
          q.1 = p.1 + 1
          ∧ (q.2.score.toNumber.le p.2.score.toNumber = true
            ∧ (p.2.score = q.2.score
              → p.2.distance.toNumber.le q.2.distance.toNumber = true)))
        (SuggestionsPage.ranking (ranked.map toSuggestion))
    ∧ (SuggestionsPage.ranking (ranked.map toSuggestion)).map Prod.fst
        = List.range' 1 ranked.length
    ∧ ((SuggestionsPage.content user clock (ranked.map toSuggestion)).rendered
          = ranked.map toSuggestion
        ∨ (SuggestionsPage.content user clock (ranked.map toSuggestion)).rendered = [])
    ∧ List.Chain'
        (fun a b : ScoredRequest =>
          b.score ≤ a.score ∧ (a.score = b.score → a.distance ≤ b.distance)) ranked
    ∧ (SuggestionsPage.fetchSuggestions
        (SuggestionsPage.SuggestionsReply.ok (ranked.map toSuggestion))).suggestions
        = some (ranked.map toSuggestion) := by
  obtain ⟨entries, rfl, _⟩ := suggest_eq_rank w distanceKm now volunteer filters requests
    ranked h
  have hchain := rank_chain entries
  refine ⟨?_, ?_, ?_, hchain, rfl⟩
  · rw [SuggestionsPage.ranking_eq_enumFrom]
    refine SuggestionsPage.chain'_enumFrom
      (fun s t : SuggestionsPage.Suggestion =>
        t.score.toNumber.le s.score.toNumber = true
          ∧ (s.score = t.score → s.distance.toNumber.le t.distance.toNumber = true))
      _ 1 ?_
    rw [List.chain'_map]
    refine List.Chain'.imp ?_ hchain
    intro a b hab
    simp only [toSuggestion, JsVal.toNumber, JsNumber.le, decide_eq_true_eq, Int.cast_le,
      JsVal.num.injEq, Int.cast_inj]
    exact ⟨hab.1, hab.2⟩
  · rw [SuggestionsPage.ranking_map_fst, List.length_map]
  · unfold SuggestionsPage.content
    split
    · exact Or.inr rfl
    · split
      · exact Or.inr rfl
      · exact Or.inl (SuggestionsPage.rendered_ranked _ clock _)

/-- C16 at the scenario of the specification: request B listed before request A in the
store, A ranked first with score 85 and B second with score 6. -/
theorem suggest_ranking_sorted_witness :
    (SuggestionsPage.ranking
        ([⟨requestA, 14 / 10, 85⟩, ⟨requestB, 21, 6⟩].map toSuggestion)).map Prod.fst
      = List.range' 1 [(⟨requestA, 14 / 10, 85⟩ : ScoredRequest), ⟨requestB, 21, 6⟩].length :=
  (suggest_ranking_sorted exampleWeights exampleDistanceKm 72000000 exampleVolunteer {}
    [requestB, requestA] [⟨requestA, 14 / 10, 85⟩, ⟨requestB, 21, 6⟩] (by decide!)
    {} 72000000).2.1

/-- The clamp keeps a score within [0, 100]. -/
theorem score_bounds (w : Weights) (now : Int) (volunteer : Volunteer) (request : Candidate)
    (distance : ℚ) :
    0 ≤ score w now volunteer request distance
      ∧ score w now volunteer request distance ≤ 100 := by
  unfold score
  constructor
  · exact le_max_left _ _
  · exact max_le (by norm_num) (min_le_left _ _)

end Engine

namespace JsObject

/-- A member just written is read back. -/
theorem get_set (o : JsObject) (key : String) (value : JsVal) :
    (o.set key value).get key = value := by
  unfold set get
  by_cases h : (o.members.any fun p => decide (p.1 = key)) = true
  · rw [if_pos h]
    simp only
    obtain ⟨members⟩ := o
    simp only at h ⊢
    induction members with
    | nil => simp at h
    | cons p ps ih =>
      rw [List.map_cons, List.find?_cons]
      by_cases hp : p.1 = key
      · simp [hp]
      · have h2 : (ps.any fun p => decide (p.1 = key)) = true := by
          simpa [List.any_cons, hp] using h
        simp only [hp, if_false, decide_False]
        exact ih h2
  · rw [if_neg h]
    simp only
    have hnone : (o.members.find? fun p => decide (p.1 = key)) = none := by
      rw [List.find?_eq_none]
      intro p hp hk
      exact h (List.any_eq_true.2 ⟨p, hp, hk⟩)
    rw [List.find?_append, hnone]
    simp

end JsObject

namespace VolunteerPage

/-- A request found among the requests of `/api/requests` is given the score 0. -/
theorem fetchFromRequests_score (requestId : String) (requestsReply : ListReply)
    (shown : JsObject)
    (h : (fetchFromRequests requestId requestsReply).request = some shown) :
    shown.get "score" = JsVal.num 0 := by
  unfold fetchFromRequests at h
  cases requestsReply with
  | failure => simp at h
  | notOk => simp at h
  | ok requests =>
    simp only at h
    split at h
    · simp only [Option.some.injEq] at h
      rw [← h]
      exact JsObject.get_set _ _ _
    · simp at h

/-- The request `fetchRequestData` ends with, if any, is one of the suggestions received
or a record whose score is 0. -/
theorem fetchRequestData_score (requestId : String)
    (suggestionsReply requestsReply : ListReply) :
    match (fetchRequestData requestId suggestionsReply requestsReply).request with
    | none => True
    | some shown =>
      (∃ suggestions, suggestionsReply = ListReply.ok suggestions ∧ shown ∈ suggestions)
        ∨ shown.get "score" = JsVal.num 0 := by
  cases hreq : (fetchRequestData requestId suggestionsReply requestsReply).request with
  | none => trivial
  | some shown =>
    simp only
    unfold fetchRequestData at hreq
    cases suggestionsReply with
    | failure => simp at hreq
    | notOk => exact Or.inr (fetchFromRequests_score requestId requestsReply shown hreq)
    | ok suggestions =>
      simp only at hreq
      split at hreq
      · rename_i foundRequest hfind
        simp only [Option.some.injEq] at hreq
        exact Or.inl ⟨suggestions, rfl, hreq ▸ List.mem_of_find?_eq_some hfind⟩
      · exact Or.inr (fetchFromRequests_score requestId requestsReply shown hreq)

end VolunteerPage

/-- C17: the score of the scoring module is an integer within [0, 100] for every
volunteer, request, distance and evaluation time, all of them arguments of the
function, so that equal inputs give equal scores; every entry `suggest` returns carries
such a score and is sent with it as its `score` member, which the suggestions page
shows as it is; and the only score the client attaches itself, in `fetchRequestData`,
is 0: the request that page ends with is a suggestion as the server sent it or a
record with score 0. -/
theorem score_in_range (w : Engine.Weights) (now : Int) (volunteer : Engine.Volunteer)
    (request : Engine.Candidate) (distance : ℚ)
    (distanceKm : Engine.Coordinate → Engine.Coordinate → ℚ)
    (filters : Engine.SuggestFilters) (requests : List Engine.Candidate)
    (foundRequest : JsObject) (requestId : String)
    (suggestionsReply requestsReply : VolunteerPage.ListReply) :
    (0 ≤ Engine.score w now volunteer request distance
      ∧ Engine.score w now volunteer request distance ≤ 100)
    ∧ (match Engine.suggest w distanceKm now volunteer filters requests with
        | Engine.SuggestOutcome.ok ranked =>
          ∀ e ∈ ranked, 0 ≤ e.score ∧ e.score ≤ 100
            ∧ (Engine.toSuggestion e).score = JsVal.num (e.score : ℚ)
        | Engine.SuggestOutcome.locationRequired => True)
    ∧ (VolunteerPage.toSuggestionFormat foundRequest).get "score" = JsVal.num 0
    ∧ (match (VolunteerPage.fetchRequestData requestId suggestionsReply requestsReply).request
          with
        | none => True
        | some shown =>
          (∃ suggestions, suggestionsReply = VolunteerPage.ListReply.ok suggestions
              ∧ shown ∈ suggestions)
            ∨ shown.get "score" = JsVal.num 0) := by
  refine ⟨Engine.score_bounds w now volunteer request distance, ?_, ?_,
    VolunteerPage.fetchRequestData_score requestId suggestionsReply requestsReply⟩
  · cases hs : Engine.suggest w distanceKm now volunteer filters requests with
    | locationRequired => trivial
    | ok ranked =>
      obtain ⟨entries, rfl, hscore⟩ :=
        Engine.suggest_eq_rank w distanceKm now volunteer filters requests ranked hs
      intro e he
      have hmem : e ∈ entries := (Engine.rank_perm entries).subset he
      have hb := Engine.score_bounds w now volunteer e.request e.distance
      rw [← hscore e hmem] at hb
      exact ⟨hb.1, hb.2, rfl⟩
  · exact JsObject.get_set _ _ _

/-! ## The travel time and the distance text -/

namespace VolunteerPage

/-- What `calculateETA` returns for a number other than 0, in terms of the minutes it
computes. -/
theorem calculateETA_num (fl : ℚ → ℚ) (d : ℚ) (hd : d ≠ 0) :
    calculateETA fl (JsVal.num d)
      = if mathRound (fl (fl (d / 30) * 60)) < 60 then
          integerText (mathRound (fl (fl (d / 30) * 60))) ++ " minutes"
        else if mathRound (fl (fl (d / 30) * 60)) % 60 > 0 then
          integerText (mathRound (fl (fl (d / 30) * 60)) / 60) ++ "h "
            ++ integerText (mathRound (fl (fl (d / 30) * 60)) % 60) ++ "m"
        else integerText (mathRound (fl (fl (d / 30) * 60)) / 60) ++ " hour"
          ++ (if mathRound (fl (fl (d / 30) * 60)) / 60 > 1 then "s" else "") := by
  simp [calculateETA, JsVal.truthy, JsVal.toNumber, hd]

/-- C21: for a distance d > 0, with M the minutes `calculateETA` computes at 30 km/h,
M = round(d / 30 * 60), the result is M minutes when M < 60, and otherwise, with
h = floor(M / 60) and r = M mod 60, it is h followed by h, r and m when r > 0, and
h hour or h hours when r = 0, hour exactly when h = 1; here 60 h + r = M,
0 <= r < 60 and h >= 1.  The minutes are taken below 2^53, where the integer
arithmetic of the function is exact. -/
theorem calculateETA_format (fl : ℚ → ℚ) (d : ℚ) (M : Int) (hd : 0 < d)
    (hM : M = mathRound (fl (fl (d / 30) * 60))) (_hrange : M < 2 ^ 53) :
    calculateETA fl (JsVal.num d)
      = (if M < 60 then integerText M ++ " minutes"
         else if 0 < M % 60 then
           integerText (M / 60) ++ "h " ++ integerText (M % 60) ++ "m"
         else if M / 60 = 1 then integerText (M / 60) ++ " hour"
         else integerText (M / 60) ++ " hours")
    ∧ 60 * (M / 60) + M % 60 = M
    ∧ 0 ≤ M % 60
    ∧ M % 60 < 60
    ∧ (60 ≤ M → 1 ≤ M / 60) := by
  refine ⟨?_, Int.ediv_add_emod M 60, Int.emod_nonneg M (by norm_num),
    Int.emod_lt_of_pos M (by norm_num), fun h => ?_⟩
  · rw [calculateETA_num fl d (ne_of_gt hd), ← hM]
    by_cases h1 : M < 60
    · simp [h1]
    · have h60 : 1 ≤ M / 60 := by omega
      by_cases h2 : 0 < M % 60
      · simp [h1, h2]
      · by_cases h3 : M / 60 = 1
        · simp [h1, h2, h3]
        · have h4 : M / 60 > 1 := by omega
          simp only [h1, h2, h3, h4, if_false, if_true, gt_iff_lt]
          rw [String.append_assoc]
          rfl
  · omega

/-- C21 at 45 km, with exact arithmetic: 90 minutes, shown as 1h 30m. -/
theorem calculateETA_format_witness :
    calculateETA id (JsVal.num 45) = "1h 30m" :=
  (calculateETA_format id 45 90 (by norm_num) (by decide!) (by norm_num)).1.trans (by decide)


/-- A travel time computed from a number contains a blank, which the text Unknown does
not. -/
theorem calculateETA_num_ne_unknown (fl : ℚ → ℚ) (d : ℚ) (hd : d ≠ 0) :
    calculateETA fl (JsVal.num d) ≠ "Unknown" := by
  intro h
  have hblank : ' ' ∈ (calculateETA fl (JsVal.num d)).data := by
    rw [calculateETA_num fl d hd]
    split_ifs <;> simp [String.data_append]
  rw [h] at hblank
  exact absurd hblank (by decide)

end VolunteerPage

/-- C26, evaluated at the distance 0: `formatDistance(0)` is Unknown distance and
`calculateETA(0)` is Unknown, as for a null or undefined distance, although the
distance is known.  For any other number the distance text is the number followed by
km away and the travel time is not Unknown. -/
theorem zero_distance_is_unknown (numberText : ℚ → String) (fl : ℚ → ℚ) (d : ℚ) :
    formatDistance numberText (JsVal.num 0) = "Unknown distance"
    ∧ VolunteerPage.calculateETA fl (JsVal.num 0) = "Unknown"
    ∧ formatDistance numberText (JsVal.num d)
        = (if d = 0 then "Unknown distance" else numberText d ++ " km away")
    ∧ (VolunteerPage.calculateETA fl (JsVal.num d) = "Unknown" ↔ d = 0)
    ∧ formatDistance numberText JsVal.null = "Unknown distance"
    ∧ formatDistance numberText JsVal.undefined = "Unknown distance"
    ∧ VolunteerPage.calculateETA fl JsVal.null = "Unknown"
    ∧ VolunteerPage.calculateETA fl JsVal.undefined = "Unknown" := by
  refine ⟨?_, ?_, ?_, ?_, ?_, ?_, ?_, ?_⟩
  · simp [formatDistance, JsVal.truthy]
  · simp [VolunteerPage.calculateETA, JsVal.truthy]
  · by_cases h : d = 0
    · simp [formatDistance, JsVal.truthy, h]
    · simp [formatDistance, JsVal.truthy, JsVal.toText, h]
  · constructor
    · intro h
      by_contra hd
      exact VolunteerPage.calculateETA_num_ne_unknown fl d hd h
    · intro h
      simp [VolunteerPage.calculateETA, JsVal.truthy, h]
  · simp [formatDistance, JsVal.truthy]
  · simp [formatDistance, JsVal.truthy]
  · simp [VolunteerPage.calculateETA, JsVal.truthy]
  · simp [VolunteerPage.calculateETA, JsVal.truthy]

/-! ## The new-request form: the description sent -/

/-- A text is its leading white space, its trimmed part and its trailing white space. -/
theorem trimChars_decompose (cs : List Char) :
    ∃ leading trailing : List Char,
      cs = leading ++ trimChars cs ++ trailing
      ∧ (∀ c ∈ leading, isJsWhiteSpace c = true)
      ∧ (∀ c ∈ trailing, isJsWhiteSpace c = true) := by
  refine ⟨cs.takeWhile isJsWhiteSpace,
    (((cs.dropWhile isJsWhiteSpace).reverse).takeWhile isJsWhiteSpace).reverse, ?_, ?_, ?_⟩
  · have h1 := List.takeWhile_append_dropWhile isJsWhiteSpace cs
    have h2 := List.takeWhile_append_dropWhile isJsWhiteSpace
      (cs.dropWhile isJsWhiteSpace).reverse
    have h3 : cs.dropWhile isJsWhiteSpace
        = trimChars cs
          ++ (((cs.dropWhile isJsWhiteSpace).reverse).takeWhile isJsWhiteSpace).reverse := by
      have := congrArg List.reverse h2
      rw [List.reverse_append, List.reverse_reverse] at this
      unfold trimChars
      exact this.symm
    rw [List.append_assoc, ← h3, h1]
  · intro c hc
    exact List.mem_takeWhile_imp hc
  · intro c hc
    exact List.mem_takeWhile_imp (List.mem_reverse.1 hc)

namespace NewRequestPage

/-- C22: whenever `handleSubmit` sends a create request, the description in its body is
the entered description without its leading and trailing white space, it is not empty,
and the type and the urgency are those of the form. -/
theorem sent_description_trimmed (formData : FormData) (server : CreatePayload → FetchResult)
    (body : CreatePayload) (h : (handleSubmit formData server).sent = some body) :
    body.description = jsTrim formData.description
    ∧ body.description ≠ ""
    ∧ body.type = formData.type
    ∧ body.urgency = formData.urgency
    ∧ ∃ leading trailing : List Char,
        formData.description.data = leading ++ body.description.data ++ trailing
        ∧ (∀ c ∈ leading, isJsWhiteSpace c = true)
        ∧ (∀ c ∈ trailing, isJsWhiteSpace c = true) := by
  rw [handleSubmit_sent] at h
  split at h
  · rename_i hcond
    simp only [Option.some.injEq] at h
    subst h
    exact ⟨rfl, hcond.1, rfl, rfl, trimChars_decompose formData.description.data⟩
  · simp at h

/-- C22 at the form filled in by hand, whose description is padded with blanks. -/
theorem sent_description_trimmed_witness :
    ("Need water" : String) = jsTrim filledForm.description :=
  (sent_description_trimmed filledForm (fun _ => FetchResult.failure)
    { type := "food", description := "Need water", urgency := "medium",
      location := { latitude := JsNumber.fin (3778 / 100),
                    longitude := JsNumber.fin (-12243 / 100),
                    address := JsVal.str "" } }
    (by decide!)).1

end NewRequestPage

/-! ## The volunteer confirmation page: the score of a request found by the fallback -/

namespace VolunteerPage

/-- C23: when the id is not among the suggestions received but a request of the requests
list has it, the request `fetchRequestData` builds is the converted record of such a
request, its score is exactly 0 whatever score the fetched record had, and the match
indicator, rendered only for a score above 0, is not rendered. -/
theorem fallback_score_zero (requestId : String) (suggestions requests : List JsObject)
    (found : JsObject)
    (hnot : ∀ s ∈ suggestions, s.get "id" ≠ JsVal.str requestId)
    (hmem : found ∈ requests) (hid : found.get "_id" = JsVal.str requestId) :
    ∃ first ∈ requests, first.get "_id" = JsVal.str requestId
      ∧ (fetchRequestData requestId (ListReply.ok suggestions) (ListReply.ok requests)).request
          = some (toSuggestionFormat first)
      ∧ (fetchRequestData requestId ListReply.notOk (ListReply.ok requests)).request
          = some (toSuggestionFormat first)
      ∧ (toSuggestionFormat first).get "score" = JsVal.num 0
      ∧ scoreBadge (toSuggestionFormat first) = none := by
  have hs : (suggestions.find? fun s => decide (s.get "id" = JsVal.str requestId)) = none := by
    rw [List.find?_eq_none]
    intro s hs
    simpa using hnot s hs
  cases hr : requests.find? fun r => decide (r.get "_id" = JsVal.str requestId) with
  | none =>
    rw [List.find?_eq_none] at hr
    have := hr found hmem
    simp [hid] at this
  | some first =>
    have hscore := JsObject.get_set
      ((JsObject.mk [("id", first.get "_id")]).spread first) "score" (JsVal.num 0)
    refine ⟨first, List.mem_of_find?_eq_some hr, ?_, ?_, ?_, hscore, ?_⟩
    · simpa using List.find?_some hr
    · simp [fetchRequestData, fetchFromRequests, hs, hr]
    · simp [fetchRequestData, fetchFromRequests, hr]
    · unfold scoreBadge
      have h0 : (toSuggestionFormat first).get "score" = JsVal.num 0 := hscore
      rw [h0]
      simp [JsVal.toNumber, JsNumber.lt]


/-- C23 at a request that arrives with a score of 87 and is not among the suggestions. -/
theorem fallback_score_zero_witness :
    ∃ first ∈ [scoredRecord], first.get "_id" = JsVal.str "r9"
      ∧ (fetchRequestData "r9" (ListReply.ok []) (ListReply.ok [scoredRecord])).request
          = some (toSuggestionFormat first)
      ∧ (fetchRequestData "r9" ListReply.notOk (ListReply.ok [scoredRecord])).request
          = some (toSuggestionFormat first)
      ∧ (toSuggestionFormat first).get "score" = JsVal.num 0
      ∧ scoreBadge (toSuggestionFormat first) = none :=
  fallback_score_zero "r9" [] [scoredRecord] scoredRecord (by simp) (by simp) (by decide)

end VolunteerPage

/-! ## The profile page: skills and the stored location -/

namespace ProfilePage

/-- The skills after a toggle of a skill that was listed: the list without it. -/
theorem toggle_listed (skill : JsVal) (prev : FormData) (h : skill ∈ prev.skills) :
    (handleSkillToggle skill prev).skills
      = prev.skills.filter fun s => decide (s ≠ skill) := by
  simp [handleSkillToggle, h]

/-- The skills after a toggle of a skill that was not listed: the list with it added at
the end. -/
theorem toggle_unlisted (skill : JsVal) (prev : FormData) (h : skill ∉ prev.skills) :
    (handleSkillToggle skill prev).skills = prev.skills ++ [skill] := by
  simp [handleSkillToggle, h]

/-- C24: after `handleSkillToggle` the toggled skill is listed exactly when it was not
before; the other skills are listed as before, in the same order and each as many times;
a list without duplicates stays without duplicates; toggling the same skill twice gives
a list with the same members; and nothing but the skills changes. -/
theorem handleSkillToggle_spec (skill t : JsVal) (prev : FormData) :
    (skill ∈ (handleSkillToggle skill prev).skills ↔ skill ∉ prev.skills)
    ∧ ((handleSkillToggle skill prev).skills.filter fun s => decide (s ≠ skill))
        = (prev.skills.filter fun s => decide (s ≠ skill))
    ∧ (t ≠ skill → (handleSkillToggle skill prev).skills.count t = prev.skills.count t)
    ∧ (prev.skills.Nodup → (handleSkillToggle skill prev).skills.Nodup)
    ∧ (t ∈ (handleSkillToggle skill (handleSkillToggle skill prev)).skills
        ↔ t ∈ prev.skills)
    ∧ (handleSkillToggle skill prev).name = prev.name
    ∧ (handleSkillToggle skill prev).phone = prev.phone
    ∧ (handleSkillToggle skill prev).location = prev.location := by
  refine ⟨?_, ?_, ?_, ?_, ?_, rfl, rfl, rfl⟩
  · by_cases h : skill ∈ prev.skills
    · rw [toggle_listed skill prev h]
      simp [h]
    · rw [toggle_unlisted skill prev h]
      simp [h]
  · by_cases h : skill ∈ prev.skills
    · rw [toggle_listed skill prev h, List.filter_filter]
      simp
    · rw [toggle_unlisted skill prev h, List.filter_append]
      simp
  · intro ht
    by_cases h : skill ∈ prev.skills
    · rw [toggle_listed skill prev h]
      exact List.count_filter (by simpa using ht)
    · rw [toggle_unlisted skill prev h, List.count_append]
      simp [List.count_singleton, ht.symm]
  · intro hnodup
    by_cases h : skill ∈ prev.skills
    · rw [toggle_listed skill prev h]
      exact hnodup.filter _
    · rw [toggle_unlisted skill prev h]
      exact List.Nodup.append hnodup (List.nodup_singleton skill) (by simpa using h)
  · by_cases h : skill ∈ prev.skills
    · have h1 : skill ∉ (handleSkillToggle skill prev).skills := by
        rw [toggle_listed skill prev h]
        simp
      rw [toggle_unlisted skill _ h1, toggle_listed skill prev h]
      by_cases hts : t = skill
      · simp [hts, h]
      · simp [hts]
    · have h1 : skill ∈ (handleSkillToggle skill prev).skills := by
        rw [toggle_unlisted skill prev h]
        simp
      rw [toggle_listed skill _ h1, toggle_unlisted skill prev h]
      by_cases hts : t = skill
      · simp [hts, h]
      · simp [hts]

/-- An edit that writes to no location field leaves the location as it is. -/
theorem applyEdit_location (formData : FormData) (edit : Edit)
    (h : edit.touchesLocation = false) :
    (applyEdit formData edit).location = formData.location := by
  cases edit with
  | change field value => cases field <;> simp_all [applyEdit, handleChange, Edit.touchesLocation]
  | toggle skill => rfl
  | located latitude longitude address => simp [Edit.touchesLocation] at h

/-- Edits that write to no location field leave the location as it is. -/
theorem foldl_applyEdit_location (edits : List Edit) (formData : FormData)
    (h : ∀ e ∈ edits, e.touchesLocation = false) :
    (edits.foldl applyEdit formData).location = formData.location := by
  induction edits generalizing formData with
  | nil => rfl
  | cons e es ih =>
    rw [List.foldl_cons, ih _ (fun x hx => h x (List.mem_cons_of_mem e hx)),
      applyEdit_location formData e (h e (List.mem_cons_self e es))]

/-- C25, evaluated at a stored location on the equator: a profile loaded with latitude 0
and longitude 10 and saved, after any edits that leave the location fields alone, sends
the empty object as its location, and in setup mode sends nothing.  In general a
stored location with numeric coordinates is sent back with the same coordinates
exactly when neither is 0, and is replaced by the empty object otherwise. -/
theorem zero_coordinate_drops_location (userData : UserData) (lat lon : ℚ) (address : JsVal)
    (reply : FetchResult) (edits : List Edit) :
    (handleSubmit false
        ((edits.filter fun e => !e.touchesLocation).foldl applyEdit
          (loaded userData (JsVal.num 0) (JsVal.num 10) address))
        reply).sent.map (fun body => body.location) = some none
    ∧ (handleSubmit true
        ((edits.filter fun e => !e.touchesLocation).foldl applyEdit
          (loaded userData (JsVal.num 0) (JsVal.num 10) address))
        reply).sent = none
    ∧ (handleSubmit false
        ((edits.filter fun e => !e.touchesLocation).foldl applyEdit
          (loaded userData (JsVal.num lat) (JsVal.num lon) address))
        reply).sent.map (fun body => body.location)
      = some (if lat = 0 ∨ lon = 0 then none
          else some ⟨JsNumber.fin lat, JsNumber.fin lon, address⟩) := by
  have hloc : ∀ a b : JsVal,
      ((edits.filter fun e => !e.touchesLocation).foldl applyEdit
        (loaded userData a b address)).location = ⟨a, b, address⟩ := by
    intro a b
    rw [foldl_applyEdit_location]
    · rfl
    · intro e he
      simpa using (List.mem_filter.1 he).2
  have hsent : ∀ (formData : FormData) (a b : ℚ),
      formData.location = ⟨JsVal.num a, JsVal.num b, address⟩ →
      (handleSubmit false formData reply).sent.map (fun body => body.location)
        = some (if a = 0 ∨ b = 0 then none
            else some ⟨JsNumber.fin a, JsNumber.fin b, address⟩) := by
    intro formData a b hl
    unfold handleSubmit
    simp only [Bool.false_eq_true, false_and, if_false, hl, JsVal.truthy, JsVal.parseFloat]
    by_cases ha : a = 0 <;> by_cases hb : b = 0 <;> cases reply <;>
      simp [ha, hb] <;> split <;> simp
  refine ⟨?_, ?_, hsent _ lat lon (hloc _ _)⟩
  · have := hsent _ 0 10 (hloc (JsVal.num 0) (JsVal.num 10))
    simpa using this
  · unfold handleSubmit
    simp [hloc, JsVal.truthy]

end ProfilePage

/-! ## The dashboard counters -/

namespace DashboardPage

/-- Every request is counted by exactly one of the four status counters. -/
theorem status_partition (requestsData : List Request) :
    withStatus "pending" requestsData + withStatus "in_progress" requestsData
        + withStatus "fulfilled" requestsData + otherStatus requestsData
      = requestsData.length := by
  induction requestsData with
  | nil => rfl
  | cons r rs ih =>
    unfold withStatus otherStatus at ih ⊢
    by_cases h1 : r.status = JsVal.str "pending"
    · simp [List.filter_cons, h1] at ih ⊢
      omega
    · by_cases h2 : r.status = JsVal.str "in_progress"
      · simp [List.filter_cons, h2] at ih ⊢
        omega
      · by_cases h3 : r.status = JsVal.str "fulfilled"
        · simp [List.filter_cons, h3] at ih ⊢
          omega
        · simp [List.filter_cons, h1, h2, h3] at ih ⊢
          omega

/-- No request has another status exactly when every status is one of the three. -/
theorem otherStatus_eq_zero_iff (requestsData : List Request) :
    otherStatus requestsData = 0
      ↔ ∀ r ∈ requestsData, r.status = JsVal.str "pending"
          ∨ r.status = JsVal.str "in_progress" ∨ r.status = JsVal.str "fulfilled" := by
  unfold otherStatus
  rw [List.length_eq_zero, List.filter_eq_nil_iff]
  refine forall_congr' fun r => forall_congr' fun _ => ?_
  simp only [decide_eq_true_eq]
  tauto

/-- C27: for the role victim `calculateStats` sets total to the length of the list and
pending, inProgress and fulfilled to the numbers of requests with these statuses; their
sum is at most total, falls short of it by the number of requests with any other
status, and equals it exactly when no request has a status outside the three. -/
theorem victim_stats (requestsData : List Request) :
    calculateStats (some "victim") requestsData
        = Stats.victim (withStatus "pending" requestsData)
            (withStatus "in_progress" requestsData) (withStatus "fulfilled" requestsData)
            requestsData.length
    ∧ withStatus "pending" requestsData + withStatus "in_progress" requestsData
          + withStatus "fulfilled" requestsData ≤ requestsData.length
    ∧ requestsData.length
          - (withStatus "pending" requestsData + withStatus "in_progress" requestsData
              + withStatus "fulfilled" requestsData)
        = otherStatus requestsData
    ∧ (withStatus "pending" requestsData + withStatus "in_progress" requestsData
          + withStatus "fulfilled" requestsData = requestsData.length
        ↔ ∀ r ∈ requestsData, r.status = JsVal.str "pending"
            ∨ r.status = JsVal.str "in_progress" ∨ r.status = JsVal.str "fulfilled") := by
  have hp := status_partition requestsData
  refine ⟨rfl, by omega, by omega, ?_⟩
  rw [← otherStatus_eq_zero_iff]
  omega

/-- C28, evaluated: for the role volunteer `calculateStats` sets available to the length
of the whole list, so a list of one fulfilled, one in-progress and one pending request
gives helped 1, inProgress 1 and available 3 although one request is pending; available
is the number of pending requests exactly when every request of the list is pending. -/
theorem available_counts_every_request (requestsData : List Request) :
    calculateStats (some "volunteer") requestsData
        = Stats.volunteer (withStatus "fulfilled" requestsData)
            (withStatus "in_progress" requestsData) requestsData.length
    ∧ calculateStats (some "volunteer")
          [{ id := "r1", status := JsVal.str "fulfilled" },
           { id := "r2", status := JsVal.str "in_progress" },
           { id := "r3", status := JsVal.str "pending" }]
        = Stats.volunteer 1 1 3
    ∧ withStatus "pending"
          [{ id := "r1", status := JsVal.str "fulfilled" },
           { id := "r2", status := JsVal.str "in_progress" },
           { id := "r3", status := JsVal.str "pending" }] = 1
    ∧ requestsData.length
        = withStatus "pending" requestsData + withStatus "in_progress" requestsData
          + withStatus "fulfilled" requestsData + otherStatus requestsData
    ∧ (requestsData.length = withStatus "pending" requestsData
        ↔ ∀ r ∈ requestsData, r.status = JsVal.str "pending") := by
  refine ⟨rfl, by decide, by decide, (status_partition requestsData).symm, ?_⟩
  unfold withStatus
  rw [eq_comm, List.filter_length_eq_length]
  simp

end DashboardPage

/-! ## The role gates on mount -/

/-- C29: the suggestions page and the volunteer-confirmation page start their fetches
exactly when the stored role is volunteer and a non-empty user id is stored, the
new-request page exactly when the role is victim and a non-empty user id is stored; each
page pushes /login exactly when the role or the user id is missing or empty, whatever
the role, and pushes /dashboard, fetching nothing, exactly when both are there and the
role is not the one of the page. -/
theorem onMount_gate (role userId : Option String) :
    (SuggestionsPage.onMount role userId
        = MountEffect.fetch ["fetchUserData", "fetchSuggestions"]
      ↔ role = some "volunteer" ∧ userId ≠ none ∧ userId ≠ some "")
    ∧ (VolunteerPage.onMount role userId
        = MountEffect.fetch ["fetchUserData", "fetchRequestData", "loadLeaflet"]
      ↔ role = some "volunteer" ∧ userId ≠ none ∧ userId ≠ some "")
    ∧ (NewRequestPage.onMount role userId = MountEffect.fetch ["fetchUserData"]
      ↔ role = some "victim" ∧ userId ≠ none ∧ userId ≠ some "")
    ∧ ((∃ calls, SuggestionsPage.onMount role userId = MountEffect.fetch calls)
      ↔ role = some "volunteer" ∧ userId ≠ none ∧ userId ≠ some "")
    ∧ ((∃ calls, VolunteerPage.onMount role userId = MountEffect.fetch calls)
      ↔ role = some "volunteer" ∧ userId ≠ none ∧ userId ≠ some "")
    ∧ ((∃ calls, NewRequestPage.onMount role userId = MountEffect.fetch calls)
      ↔ role = some "victim" ∧ userId ≠ none ∧ userId ≠ some "")
    ∧ (SuggestionsPage.onMount role userId = MountEffect.redirect "/login"
      ↔ role = none ∨ role = some "" ∨ userId = none ∨ userId = some "")
    ∧ (VolunteerPage.onMount role userId = MountEffect.redirect "/login"
      ↔ role = none ∨ role = some "" ∨ userId = none ∨ userId = some "")
    ∧ (NewRequestPage.onMount role userId = MountEffect.redirect "/login"
      ↔ role = none ∨ role = some "" ∨ userId = none ∨ userId = some "")
    ∧ (SuggestionsPage.onMount role userId = MountEffect.redirect "/dashboard"
      ↔ (role ≠ none ∧ role ≠ some "" ∧ userId ≠ none ∧ userId ≠ some "")
          ∧ role ≠ some "volunteer")
    ∧ (VolunteerPage.onMount role userId = MountEffect.redirect "/dashboard"
      ↔ (role ≠ none ∧ role ≠ some "" ∧ userId ≠ none ∧ userId ≠ some "")
          ∧ role ≠ some "volunteer")
    ∧ (NewRequestPage.onMount role userId = MountEffect.redirect "/dashboard"
      ↔ (role ≠ none ∧ role ≠ some "" ∧ userId ≠ none ∧ userId ≠ some "")
          ∧ role ≠ some "victim") := by
  rcases role with _ | r <;> rcases userId with _ | u
  · simp [SuggestionsPage.onMount, VolunteerPage.onMount, NewRequestPage.onMount,
      storedMissing]
  · simp [SuggestionsPage.onMount, VolunteerPage.onMount, NewRequestPage.onMount,
      storedMissing]
  · simp [SuggestionsPage.onMount, VolunteerPage.onMount, NewRequestPage.onMount,
      storedMissing]
  · by_cases hr : r = "" <;> by_cases hu : u = "" <;>
      by_cases hv : r = "volunteer" <;> by_cases hw : r = "victim" <;>
      simp_all [SuggestionsPage.onMount, VolunteerPage.onMount, NewRequestPage.onMount,
        storedMissing]

/-! ## When a suggestion shows no match reason -/

namespace SuggestionsPage

/-- The list of `getMatchReasons` is empty exactly when each of its four tests fails. -/
theorem getMatchReasons_eq_nil_iff (user : Option User) (now : Int) (s : Suggestion) :
    getMatchReasons user now s = []
      ↔ s.distance.toNumber.le (JsNumber.fin 15) = false
        ∧ s.urgency ≠ JsVal.str "high"
        ∧ skillsInclude user s.type = false
        ∧ (((JsNumber.fin (now : ℚ)).sub (timeValue s.created_at)).divConst
            (1000 * 60 * 60)).lt (JsNumber.fin 2) = false := by
  rw [getMatchReasons_eq]
  simp only [List.append_eq_nil]
  have h5 : s.distance.toNumber.le (JsNumber.fin 5) = true →
      s.distance.toNumber.le (JsNumber.fin 15) = true := by
    cases s.distance.toNumber <;> simp [JsNumber.le]
    intro h
    linarith
  constructor
  · rintro ⟨⟨⟨h1, h2⟩, h3⟩, h4⟩
    refine ⟨?_, ?_, ?_, ?_⟩
    · by_contra hc
      have h15 : s.distance.toNumber.le (JsNumber.fin 15) = true := by simpa using hc
      split_ifs at h1
    · intro hc
      simp [hc] at h2
    · by_contra hc
      simp at hc
      simp [hc] at h3
    · by_contra hc
      simp at hc
      simp [hc] at h4
  · rintro ⟨h1, h2, h3, h4⟩
    have h1' : ¬ s.distance.toNumber.le (JsNumber.fin 5) = true := by
      intro hc
      rw [h5 hc] at h1
      exact Bool.noConfusion h1
    simp [h1, h1', h2, h3, h4]

/-- C30 as written, refuted: a suggestion that carries no distance (null), of medium
urgency, of a type the volunteer has no skill for and created more than 27 hours
ago meets none of the four thresholds, and `getMatchReasons` still returns a reason. -/
theorem absent_distance_has_reason :
    JsVal.null.isMissing = true
    ∧ JsVal.str "medium" ≠ JsVal.str "high"
    ∧ skillsInclude (some { role := JsVal.str "volunteer", skills := some [JsVal.str "water"] })
        (JsVal.str "shelter") = false
    ∧ ¬ ((100000000 : Int) - 0 < 2 * 60 * 60 * 1000)
    ∧ getMatchReasons
        (some { role := JsVal.str "volunteer", skills := some [JsVal.str "water"] })
        100000000
        { distance := JsVal.null, urgency := JsVal.str "medium",
          type := JsVal.str "shelter", created_at := some 0 }
      ≠ [] := by
  refine ⟨rfl, by decide, by decide, by decide, ?_⟩
  rw [Ne, getMatchReasons_eq_nil_iff]
  simp [JsVal.toNumber, JsNumber.le]

/-- C30 as amended: for a suggestion whose distance is a number d and whose creation
time is valid, `getMatchReasons` returns the empty list exactly when d is above 15,
the urgency is not high, the type is not among the skills of the volunteer and the
request is at least two hours old; for a suggestion with no distance member
(undefined) exactly when the last three hold; and request B of the specification, 21
km away, medical, of low urgency, 20 hours old, for a volunteer with the skill food,
gets the empty list. -/
theorem getMatchReasons_empty_iff (user : Option User) (now t : Int) (s : Suggestion)
    (d : ℚ) :
    (getMatchReasons user now { s with distance := JsVal.num d, created_at := some t } = []
      ↔ ¬ d ≤ 15 ∧ s.urgency ≠ JsVal.str "high" ∧ skillsInclude user s.type = false
          ∧ ¬ now - t < 2 * 60 * 60 * 1000)
    ∧ (getMatchReasons user now { s with distance := JsVal.undefined, created_at := some t }
        = []
      ↔ s.urgency ≠ JsVal.str "high" ∧ skillsInclude user s.type = false
          ∧ ¬ now - t < 2 * 60 * 60 * 1000)
    ∧ getMatchReasons (some { role := JsVal.str "volunteer", skills := some [JsVal.str "food"] })
        72000000
        { distance := JsVal.num 21, urgency := JsVal.str "low", type := JsVal.str "medical",
          created_at := some 0 }
      = [] := by
  have hrec : ∀ b : Bool, (b = false) ↔ ¬ (b = true) := by intro b; cases b <;> simp
  refine ⟨?_, ?_, ?_⟩
  · rw [getMatchReasons_eq_nil_iff, hrec (JsNumber.lt _ _), recent_iff]
    simp [JsVal.toNumber, JsNumber.le]
  · rw [getMatchReasons_eq_nil_iff, hrec (JsNumber.lt _ _), recent_iff]
    simp [JsVal.toNumber, JsNumber.le]
  · rw [getMatchReasons_eq_nil_iff, hrec (JsNumber.lt _ _), recent_iff]
    refine ⟨?_, by decide, by decide, by decide⟩
    simp [JsVal.toNumber, JsNumber.le]
    norm_num

end SuggestionsPage

end Cascade
